import Mathlib

/-!
# Payment-callback reconciliation flow

A shallow embedding of `src/components/PaymentCallback.jsx`.

JavaScript values that are `string | null` are `Option String`.  The
component's collaborators (`api.confirmOrder`, `clearCart`,
`sessionStorage.removeItem`, `toast`) live outside the component; their
behaviour is an explicit environment `Env`.  A run of the asynchronous
handler is the list of calls it makes, in program order, together with its
completion (normal, or a thrown error that escapes the handler).
-/

namespace PaymentCallback

/-! ## Data model -/

/-- A thrown JavaScript error object, seen through the only property the
component reads: `error.message` (`none` when the property is absent).  The
value thrown is taken to be an object, as `Error` instances are. -/
structure JsError where
  message : Option String
  deriving DecidableEq, Repr

/-- The resolved value of `api.confirmOrder`: `success` is the truthiness of
`response.success`; `message` is `response.message`, which a server may send
along. -/
structure Response where
  success : Bool
  message : Option String
  deriving DecidableEq, Repr

/-- How the promise returned by `api.confirmOrder` settles.  A resolved value
that is not an object makes `response.success` throw a `TypeError`; the run
then goes on as for `rejects` with that error. -/
inductive RpcResult where
  | resolves (response : Response)
  | rejects (error : JsError)
  deriving DecidableEq, Repr

/-- The three `react-hot-toast` entry points the component calls. -/
inductive ToastKind where
  | loading
  | success
  | error
  deriving DecidableEq, Repr

/-- One call `toast.<kind>(message, { id })`. -/
structure Toast where
  kind : ToastKind
  message : String
  id : String
  deriving DecidableEq, Repr

/-- The calls the component makes on its collaborators and on its own state
setters, as they appear in the source. -/
inductive Effect where
  | consoleLog (text : String) (data : List (Option String))
  | consoleError (text : String) (error : JsError)
  | toast (t : Toast)
  | confirmOrder (ref razorpay_order_id razorpay_payment_id razorpay_signature : Option String)
  | setPaymentStatus (status : String)
  | clearCart
  | removeItem (key : String)
  | setTimeout (navigateTo : String) (delay : Nat)
  | navigate (path : String)
  | setProcessing (value : Bool)
  deriving DecidableEq, Repr

/-- The behaviour of the collaborators during one run: how the confirmation
RPC settles for given arguments, and whether `clearCart()`,
`sessionStorage.removeItem` and each `toast` call throw (`none`: the call
completes normally). -/
structure Env where
  confirmOrder : Option String → Option String → Option String → Option String → RpcResult
  clearCart : Option JsError
  removeItem : Option JsError
  toast : Toast → Option JsError

/-- The query string as `URLSearchParams`: key/value pairs in URL order. -/
abbrev SearchParams := List (String × String)

/-- The method `URLSearchParams.get`: the first value stored under `key`, or
`null`. -/
def SearchParams.get (searchParams : SearchParams) (key : String) : Option String :=
  (searchParams.find? (fun kv => kv.1 == key)).map Prod.snd

/-- JavaScript truthiness of a `string | null`: `null` and `''` are falsy. -/
def truthy : Option String → Bool
  | none => false
  | some s => s != ""

/-- The expression `a || b` for a `string | null` left operand. -/
def orElse (a : Option String) (b : String) : String :=
  match a with
  | some s => if s != "" then s else b
  | none => b

/-- String interpolation of a `string | null` inside a template literal. -/
def interpolate : Option String → String
  | some s => s
  | none => "null"

/-! ## Runs: a trace of calls and a completion -/

/-- A computation of the handler: the calls made so far, and either a value
or the error thrown. -/
structure Js (α : Type) where
  trace : List Effect
  result : Except JsError α

/-- Sequencing: a thrown error skips the rest, the calls already made stay. -/
def Js.bind {α β : Type} (m : Js α) (f : α → Js β) : Js β :=
  match m.result with
  | .ok a => ⟨m.trace ++ (f a).trace, (f a).result⟩
  | .error e => ⟨m.trace, .error e⟩

instance Js.instMonad : Monad Js where
  pure a := ⟨[], .ok a⟩
  bind := Js.bind

/-- The statement `try body catch (error) handler`. -/
def Js.tryCatch {α : Type} (body : Js α) (handler : JsError → Js α) : Js α :=
  match body.result with
  | .ok a => ⟨body.trace, .ok a⟩
  | .error e => ⟨body.trace ++ (handler e).trace, (handler e).result⟩

instance Js.instMonadExcept : MonadExcept JsError Js where
  throw e := ⟨[], .error e⟩
  tryCatch := Js.tryCatch

/-- The statement `try body finally fin`: the finalizer always runs; an error
thrown by the finalizer replaces the body's completion. -/
def Js.tryFinally {α β : Type} (body : Js α) (fin : Option α → Js β) : Js (α × β) :=
  match body.result with
  | .ok a =>
    match (fin (some a)).result with
    | .ok b => ⟨body.trace ++ (fin (some a)).trace, .ok (a, b)⟩
    | .error e => ⟨body.trace ++ (fin (some a)).trace, .error e⟩
  | .error e =>
    match (fin none).result with
    | .ok _ => ⟨body.trace ++ (fin none).trace, .error e⟩
    | .error e2 => ⟨body.trace ++ (fin none).trace, .error e2⟩

instance Js.instMonadFinally : MonadFinally Js where
  tryFinally' := Js.tryFinally

/-- A call that cannot throw. -/
def call (e : Effect) : Js Unit := ⟨[e], .ok ()⟩

/-- A call that throws `err` when the collaborator fails. -/
def callMay (e : Effect) (failure : Option JsError) : Js Unit :=
  match failure with
  | none => ⟨[e], .ok ()⟩
  | some err => ⟨[e], .error err⟩

/-! ## The component -/

/-- The call `toast.<kind>(message, { id })` made against `env`. -/
def toastCall (env : Env) (kind : ToastKind) (message id : String) : Js Unit :=
  callMay (.toast ⟨kind, message, id⟩) (env.toast ⟨kind, message, id⟩)

/-- The awaited call `api.confirmOrder(ref, { ... })`. -/
def apiConfirmOrder (env : Env)
    (ref razorpay_order_id razorpay_payment_id razorpay_signature : Option String) :
    Js Response :=
  match env.confirmOrder ref razorpay_order_id razorpay_payment_id razorpay_signature with
  | .resolves response =>
    ⟨[.confirmOrder ref razorpay_order_id razorpay_payment_id razorpay_signature], .ok response⟩
  | .rejects error =>
    ⟨[.confirmOrder ref razorpay_order_id razorpay_payment_id razorpay_signature], .error error⟩

/-- The async function `handlePaymentCallback` of the effect
(PaymentCallback.jsx lines 28-88). -/
def handlePaymentCallback (env : Env) (searchParams : SearchParams) : Js Unit := do
  try
    let payment := searchParams.get "payment"
    let ref := searchParams.get "ref"
    let razorpay_order_id := searchParams.get "razorpay_order_id"
    let razorpay_payment_id := searchParams.get "razorpay_payment_id"
    let razorpay_signature := searchParams.get "razorpay_signature"
    call (.consoleLog "💳 Payment callback received:" [payment, ref, razorpay_payment_id])
    if payment = some "success" ∧ truthy ref = true then
      toastCall env .loading "Confirming your order..." "confirm-order"
      let response ← apiConfirmOrder env ref razorpay_order_id razorpay_payment_id
        razorpay_signature
      if response.success = true then
        call (.setPaymentStatus "success")
        toastCall env .success "Order placed successfully! 🎉" "confirm-order"
        callMay .clearCart env.clearCart
        callMay (.removeItem "pendingOrder") env.removeItem
        call (.setTimeout ("/track-order/" ++ interpolate ref) 1000)
      else
        throw (JsError.mk (some "Failed to confirm order"))
    else if payment = some "failed" then
      call (.setPaymentStatus "failed")
      toastCall env .error "Payment failed. Please try again." "confirm-order"
      call (.setTimeout "/" 2000)
    else
      toastCall env .error "Invalid payment callback" "confirm-order"
      call (.navigate "/")
  catch error =>
    call (.consoleError "❌ Payment callback error:" error)
    call (.setPaymentStatus "failed")
    toastCall env .error (orElse error.message "Failed to process payment") "confirm-order"
    call (.setTimeout "/" 2000)
  finally
    call (.setProcessing false)

/-- The React state of one mounted instance: the ref `hasProcessed` and the
state variables `processing` and `paymentStatus`. -/
structure Instance where
  hasProcessed : Bool
  processing : Bool
  paymentStatus : Option String
  deriving DecidableEq, Repr

/-- The instance at mount: `useRef(false)`, `useState(true)`,
`useState(null)`. -/
def Instance.mount : Instance := ⟨false, true, none⟩

/-- The action of one call on the instance's state variables. -/
def Instance.apply (inst : Instance) : Effect → Instance
  | .setPaymentStatus status => { inst with paymentStatus := some status }
  | .setProcessing value => { inst with processing := value }
  | _ => inst

/-- One invocation of the `useEffect` callback (lines 17-92) on an instance,
with the value of `loading` it reads: the instance afterwards and the calls
made. -/
def effect (env : Env) (searchParams : SearchParams) (loading : Bool) (inst : Instance) :
    Instance × List Effect :=
  if loading then
    (inst, [.consoleLog "⏳ Waiting for auth to load after payment redirect..." []])
  else if inst.hasProcessed then
    (inst, [])
  else
    let run := handlePaymentCallback env searchParams
    (run.trace.foldl Instance.apply { inst with hasProcessed := true }, run.trace)

/-- The three alternatives of the rendered markup (lines 97-125). -/
inductive View where
  | processingPayment
  | paymentSuccessful
  | paymentFailed
  deriving DecidableEq, Repr

/-- The conditional rendering of the component. -/
def render (inst : Instance) : View :=
  if inst.processing then .processingPayment
  else if inst.paymentStatus = some "success" then .paymentSuccessful
  else .paymentFailed

/-- The React runtime invoking the effect callback repeatedly on one and the
same mounted component; each invocation comes with the `loading` value of its
render and the behaviour of the collaborators then in force.  The calls are listed in program
order; the guard `hasProcessed.current` is written synchronously, before the
handler is started, so it is set for every later invocation however far the
asynchronous handler has got. -/
def invocations (searchParams : SearchParams) :
    List (Bool × Env) → Instance → Instance × List Effect
  | [], inst => (inst, [])
  | (loading, env) :: rest, inst =>
    ((invocations searchParams rest (effect env searchParams loading inst).1).1,
      (effect env searchParams loading inst).2 ++
        (invocations searchParams rest (effect env searchParams loading inst).1).2)

/-! ## Observations on a trace -/

/-- Whether a call is console output (`console.log`, `console.error`). -/
def Effect.isLog : Effect → Bool
  | .consoleLog _ _ => true
  | .consoleError _ _ => true
  | _ => false

/-- The calls of `api.confirmOrder`, with their arguments. -/
def rpcCalls (trace : List Effect) : List Effect :=
  trace.filter (fun e => match e with
    | .confirmOrder _ _ _ _ => true
    | _ => false)

/-- The notifications shown. -/
def toasts (trace : List Effect) : List Toast :=
  trace.filterMap (fun e => match e with
    | .toast t => some t
    | _ => none)

/-- The values written to `paymentStatus`. -/
def phaseWrites (trace : List Effect) : List String :=
  trace.filterMap (fun e => match e with
    | .setPaymentStatus status => some status
    | _ => none)

/-- The values written to `processing`. -/
def processingWrites (trace : List Effect) : List Bool :=
  trace.filterMap (fun e => match e with
    | .setProcessing value => some value
    | _ => none)

/-- The number of `clearCart()` calls. -/
def cartClears (trace : List Effect) : Nat :=
  trace.count .clearCart

/-- The keys passed to `sessionStorage.removeItem`. -/
def removals (trace : List Effect) : List String :=
  trace.filterMap (fun e => match e with
    | .removeItem key => some key
    | _ => none)

/-- The navigations scheduled with `setTimeout`: target and delay in ms. -/
def timers (trace : List Effect) : List (String × Nat) :=
  trace.filterMap (fun e => match e with
    | .setTimeout target delay => some (target, delay)
    | _ => none)

/-- The targets of the `navigate` calls made directly by the run. -/
def navigations (trace : List Effect) : List String :=
  trace.filterMap (fun e => match e with
    | .navigate path => some path
    | _ => none)

/-- The environment in which no notification call throws. -/
def Env.notifies (env : Env) : Prop := ∀ t : Toast, env.toast t = none

/-- The outcome of the confirmation RPC for the callback's parameters. -/
def rpcResult (env : Env) (searchParams : SearchParams) : RpcResult :=
  env.confirmOrder (searchParams.get "ref") (searchParams.get "razorpay_order_id")
    (searchParams.get "razorpay_payment_id") (searchParams.get "razorpay_signature")

/-! ## The blocks of the handler and the calls they make -/

/-- The body of the `try` block (lines 30-76). -/
def tryBlock (env : Env) (searchParams : SearchParams) : Js Unit := do
  let payment := searchParams.get "payment"
  let ref := searchParams.get "ref"
  let razorpay_order_id := searchParams.get "razorpay_order_id"
  let razorpay_payment_id := searchParams.get "razorpay_payment_id"
  let razorpay_signature := searchParams.get "razorpay_signature"
  call (.consoleLog "💳 Payment callback received:" [payment, ref, razorpay_payment_id])
  if payment = some "success" ∧ truthy ref = true then
    toastCall env .loading "Confirming your order..." "confirm-order"
    let response ← apiConfirmOrder env ref razorpay_order_id razorpay_payment_id
      razorpay_signature
    if response.success = true then
      call (.setPaymentStatus "success")
      toastCall env .success "Order placed successfully! 🎉" "confirm-order"
      callMay .clearCart env.clearCart
      callMay (.removeItem "pendingOrder") env.removeItem
      call (.setTimeout ("/track-order/" ++ interpolate ref) 1000)
    else
      throw (JsError.mk (some "Failed to confirm order"))
  else if payment = some "failed" then
    call (.setPaymentStatus "failed")
    toastCall env .error "Payment failed. Please try again." "confirm-order"
    call (.setTimeout "/" 2000)
  else
    toastCall env .error "Invalid payment callback" "confirm-order"
    call (.navigate "/")

/-- The body of the `catch` block (lines 78-84). -/
def catchBlock (env : Env) (error : JsError) : Js Unit := do
  call (.consoleError "❌ Payment callback error:" error)
  call (.setPaymentStatus "failed")
  toastCall env .error (orElse error.message "Failed to process payment") "confirm-order"
  call (.setTimeout "/" 2000)

/-- The log line every run starts with. -/
def receivedLog (sp : SearchParams) : Effect :=
  .consoleLog "💳 Payment callback received:"
    [sp.get "payment", sp.get "ref", sp.get "razorpay_payment_id"]

/-- The confirmation call for the callback's parameters. -/
def confirmCall (sp : SearchParams) : Effect :=
  .confirmOrder (sp.get "ref") (sp.get "razorpay_order_id") (sp.get "razorpay_payment_id")
    (sp.get "razorpay_signature")

/-- The progress notification. -/
def confirmingToast : Toast := ⟨.loading, "Confirming your order...", "confirm-order"⟩

/-- The success notification. -/
def placedToast : Toast := ⟨.success, "Order placed successfully! 🎉", "confirm-order"⟩

/-- The notification of the `payment=failed` branch. -/
def paymentFailedToast : Toast := ⟨.error, "Payment failed. Please try again.", "confirm-order"⟩

/-- The notification of the final `else` branch. -/
def invalidToast : Toast := ⟨.error, "Invalid payment callback", "confirm-order"⟩

/-- The line logged while the auth context is still loading. -/
def waitingLog : Effect :=
  .consoleLog "⏳ Waiting for auth to load after payment redirect..." []

/-- Whether the confirmation RPC, for the callback's parameters, resolves
with a truthy `response.success`. -/
def confirms (env : Env) (sp : SearchParams) : Bool :=
  match rpcResult env sp with
  | .resolves response => response.success
  | .rejects _ => false

/-! ## Concrete callbacks and collaborators -/

/-- A backend that confirms every order; no collaborator throws. -/
def confirmingEnv : Env :=
  ⟨fun _ _ _ _ => .resolves ⟨true, none⟩, none, none, fun _ => none⟩

/-- The redirect `?payment=success&ref=ORD123&razorpay_order_id=O1&...`. -/
def successUrl : SearchParams :=
  [("payment", "success"), ("ref", "ORD123"), ("razorpay_order_id", "O1"),
    ("razorpay_payment_id", "P1"), ("razorpay_signature", "S1")]

/-- A backend that confirms the order while `clearCart()` rejects with
`Error('Network Error')`. -/
def cartDownEnv : Env :=
  ⟨fun _ _ _ _ => .resolves ⟨true, none⟩, some ⟨some "Network Error"⟩, none, fun _ => none⟩

/-- A backend that answers without a truthy `success` and with a reason. -/
def rejectingEnv : Env :=
  ⟨fun _ _ _ _ => .resolves ⟨false, some "Payment signature mismatch"⟩, none, none,
    fun _ => none⟩

/-- A backend whose call raises `Error('Request failed with status code 500')`. -/
def raisingEnv : Env :=
  ⟨fun _ _ _ _ => .rejects ⟨some "Request failed with status code 500"⟩, none, none,
    fun _ => none⟩

/-- The redirect `?payment=failed`, without `ref`. -/
def failedUrl : SearchParams := [("payment", "failed")]

/-- The redirect `?payment=Success&ref=ORD123`, with a capital letter. -/
def capitalUrl : SearchParams := [("payment", "Success"), ("ref", "ORD123")]

/-- The redirect `?payment=success&ref=`, with an empty order reference. -/
def emptyRefUrl : SearchParams := [("payment", "success"), ("ref", "")]

/-! ## The instance over time -/

/-- What happens, one thing at a time, once the effect has started the
handler: `resume`, the handler makes its next call (at once, or when the
promise it awaits has settled); `elapse`, the delay of the oldest pending
timer is over and its callback runs; `unmount`, React tears the component
down. -/
inductive Tick where
  | resume
  | elapse
  | unmount
  deriving DecidableEq, Repr

/-- The instance and its handler at one moment: whether the component is
mounted, the calls the handler has still to make, the navigations scheduled
with `setTimeout` whose delay is not over, and the calls made so far, each
with whether the component was mounted when it was made. -/
structure Timeline where
  mounted : Bool
  suspended : List Effect
  pending : List (String × Nat)
  log : List (Bool × Effect)
  deriving DecidableEq, Repr

/-- The moment the effect calls `handlePaymentCallback()` (line 90). -/
def Timeline.start (env : Env) (searchParams : SearchParams) : Timeline :=
  ⟨true, (handlePaymentCallback env searchParams).trace, [], []⟩

/-- The timer a call registers: `setTimeout(() => navigate(target), delay)`
registers one, any other call none. -/
def registered : Effect → List (String × Nat)
  | .setTimeout target delay => [(target, delay)]
  | _ => []

/-- One tick.  The effect callback returns `undefined` on each of its paths,
so React has no cleanup function to run at unmount; the handle returned by
`setTimeout` is dropped, so no timer is ever cleared; and the handler reads no
mounted flag.  Unmounting therefore changes `mounted` and nothing else. -/
def Timeline.step (t : Timeline) : Tick → Timeline
  | .resume =>
    match t.suspended with
    | [] => t
    | e :: rest =>
      { t with suspended := rest, pending := t.pending ++ registered e,
               log := t.log ++ [(t.mounted, e)] }
  | .elapse =>
    match t.pending with
    | [] => t
    | (target, _) :: rest =>
      { t with pending := rest, log := t.log ++ [(t.mounted, .navigate target)] }
  | .unmount => { t with mounted := false }

/-- A sequence of ticks. -/
def Timeline.run (t : Timeline) (ticks : List Tick) : Timeline :=
  ticks.foldl Timeline.step t

/-- The calls made so far, in order. -/
def Timeline.calls (t : Timeline) : List Effect :=
  t.log.map Prod.snd

/-- The calls made while the component was no longer mounted. -/
def Timeline.callsAfterTeardown (t : Timeline) : List Effect :=
  (t.log.filter (fun entry => !entry.1)).map Prod.snd

/-- The component is torn down while the confirmation RPC is in flight: the
handler has logged, notified and called `api.confirmOrder`; it then makes its
remaining calls and the timer fires. -/
def teardownDuringRpc : List Tick :=
  [.resume, .resume, .resume, .unmount, .resume, .resume, .resume, .resume, .resume, .resume,
    .elapse]

/-- The component is torn down after a confirmed run has finished and before
the delay of its timer is over. -/
def teardownBeforeDelay : List Tick :=
  [.resume, .resume, .resume, .resume, .resume, .resume, .resume, .resume, .resume, .unmount,
    .elapse]

end PaymentCallback

/-!
# Rider registration form

A shallow embedding of `handleSubmit` in `src/components/RiderRegistration.jsx`.
JavaScript strings are Lean strings; `length` counts UTF-16 code units and
`trim` strips the characters ECMAScript counts as white space or line
terminators.  The notifications, `navigate` and the state setter are taken not
to throw.
-/

namespace RiderRegistration

open PaymentCallback (JsError orElse)

/-- The state variable `formData` (lines 12-19). -/
structure FormData where
  vehicleType : String
  vehicleNumber : String
  licenseNumber : String
  aadharNumber : String
  bankAccount : String
  ifscCode : String
  deriving DecidableEq, Repr

/-- The characters removed by `String.prototype.trim`: ECMAScript WhiteSpace
(TAB, VT, FF, SP, NBSP, ZWNBSP and the Unicode space separators) and
LineTerminator (LF, CR, LS, PS). -/
def isWhiteSpace (c : Char) : Bool :=
  c.toNat ∈ [0x09, 0x0A, 0x0B, 0x0C, 0x0D, 0x20, 0xA0, 0x1680, 0x2028, 0x2029, 0x202F, 0x205F,
    0x3000, 0xFEFF] || (0x2000 ≤ c.toNat && c.toNat ≤ 0x200A)

/-- The method `String.prototype.trim`. -/
def trim (s : String) : String :=
  ⟨((s.data.dropWhile isWhiteSpace).reverse.dropWhile isWhiteSpace).reverse⟩

/-- The property `String.prototype.length`: the number of UTF-16 code units. -/
def length (s : String) : Nat :=
  (s.data.map (fun c => if c.toNat < 0x10000 then 1 else 2)).sum

/-- The outcome of `response.json()`: it rejects, or resolves to an object
whose `message` property is read. -/
inductive Body where
  | unreadable (error : JsError)
  | data (message : Option String)
  deriving DecidableEq, Repr

/-- The outcome of the `fetch` call: it rejects, or resolves to a response
with its `ok` flag and its body. -/
inductive FetchResult where
  | rejects (error : JsError)
  | responds (ok : Bool) (body : Body)
  deriving DecidableEq, Repr

/-- The calls `handleSubmit` makes. -/
inductive Call where
  | preventDefault
  | toastError (text : String)
  | toastSuccess (text : String)
  | setSubmitting (value : Bool)
  | fetch (url method contentType credentials : String) (body : FormData)
  | responseJson
  | checkAuth
  | navigate (path : String)
  | consoleError (text : String) (error : JsError)
  deriving DecidableEq, Repr

/-- The behaviour of the server and of `checkAuth()` during one submission. -/
structure Env where
  fetch : String → FormData → FetchResult
  checkAuth : Option JsError

/-- A computation of the handler: the calls made so far, and either a value
or the error thrown. -/
structure Run (α : Type) where
  trace : List Call
  result : Except JsError α

/-- Sequencing: a thrown error skips the rest, the calls already made stay. -/
def Run.bind {α β : Type} (m : Run α) (f : α → Run β) : Run β :=
  match m.result with
  | .ok a => ⟨m.trace ++ (f a).trace, (f a).result⟩
  | .error e => ⟨m.trace, .error e⟩

instance Run.instMonad : Monad Run where
  pure a := ⟨[], .ok a⟩
  bind := Run.bind

/-- The statement `try body catch (error) handler`. -/
def Run.tryCatch {α : Type} (body : Run α) (handler : JsError → Run α) : Run α :=
  match body.result with
  | .ok a => ⟨body.trace, .ok a⟩
  | .error e => ⟨body.trace ++ (handler e).trace, (handler e).result⟩

instance Run.instMonadExcept : MonadExcept JsError Run where
  throw e := ⟨[], .error e⟩
  tryCatch := Run.tryCatch

/-- The statement `try body finally fin`. -/
def Run.tryFinally {α β : Type} (body : Run α) (fin : Option α → Run β) : Run (α × β) :=
  match body.result with
  | .ok a =>
    match (fin (some a)).result with
    | .ok b => ⟨body.trace ++ (fin (some a)).trace, .ok (a, b)⟩
    | .error e => ⟨body.trace ++ (fin (some a)).trace, .error e⟩
  | .error e =>
    match (fin none).result with
    | .ok _ => ⟨body.trace ++ (fin none).trace, .error e⟩
    | .error e2 => ⟨body.trace ++ (fin none).trace, .error e2⟩

instance Run.instMonadFinally : MonadFinally Run where
  tryFinally' := Run.tryFinally

/-- A call that cannot throw. -/
def invoke (c : Call) : Run Unit := ⟨[c], .ok ()⟩

/-- An awaited call that rejects with `err` when the collaborator fails. -/
def awaited (c : Call) (failure : Option JsError) : Run Unit :=
  match failure with
  | none => ⟨[c], .ok ()⟩
  | some err => ⟨[c], .error err⟩

/-- The awaited call `fetch(url, { method: 'POST', headers, credentials, body })`
of lines 77-84; the body is `JSON.stringify(formData)`. -/
def fetchRegister (env : Env) (url : String) (formData : FormData) : Run (Bool × Body) :=
  match env.fetch url formData with
  | .rejects error => ⟨[.fetch url "POST" "application/json" "include" formData], .error error⟩
  | .responds ok body =>
    ⟨[.fetch url "POST" "application/json" "include" formData], .ok (ok, body)⟩

/-- The awaited call `response.json()`, giving `data.message`. -/
def responseJson (body : Body) : Run (Option String) :=
  match body with
  | .unreadable error => ⟨[.responseJson], .error error⟩
  | .data message => ⟨[.responseJson], .ok message⟩

/-- The function `handleSubmit` (RiderRegistration.jsx lines 40-101);
`serverUrl` is the text `SERVER_URL` interpolates to. -/
def handleSubmit (serverUrl : String) (env : Env) (formData : FormData) : Run Unit := do
  invoke .preventDefault
  if formData.vehicleType = "" then
    invoke (.toastError "Please select a vehicle type")
    return
  if trim formData.vehicleNumber = "" then
    invoke (.toastError "Please enter your vehicle number")
    return
  if trim formData.licenseNumber = "" then
    invoke (.toastError "Please enter your license number")
    return
  if trim formData.aadharNumber = "" ∨ length formData.aadharNumber ≠ 12 then
    invoke (.toastError "Please enter a valid 12-digit Aadhar number")
    return
  if trim formData.bankAccount = "" then
    invoke (.toastError "Please enter your bank account number")
    return
  if trim formData.ifscCode = "" ∨ length formData.ifscCode ≠ 11 then
    invoke (.toastError "Please enter a valid 11-character IFSC code")
    return
  invoke (.setSubmitting true)
  try
    let response ← fetchRegister env (serverUrl ++ "/api/rider/register") formData
    let data ← responseJson response.2
    if response.1 = true then
      invoke (.toastSuccess "Successfully registered as a rider!")
      awaited .checkAuth env.checkAuth
      invoke (.navigate "/rider/dashboard")
    else
      invoke (.toastError (orElse data "Failed to register as rider"))
  catch error =>
    invoke (.consoleError "Error:" error)
    invoke (.toastError "An error occurred. Please try again.")
  finally
    invoke (.setSubmitting false)

/-- The `fetch` calls of a trace. -/
def requests (trace : List Call) : List Call :=
  trace.filter (fun c => match c with
    | .fetch _ _ _ _ _ => true
    | _ => false)

/-- The values written to `submitting`. -/
def submittingWrites (trace : List Call) : List Bool :=
  trace.filterMap (fun c => match c with
    | .setSubmitting value => some value
    | _ => none)

/-- The state variable `submitting` after a trace: `useState(false)`, then
the values written. -/
def submittingAfter (trace : List Call) : Bool :=
  (submittingWrites trace).foldl (fun _ value => value) false

/-- The error notifications shown. -/
def errorToasts (trace : List Call) : List String :=
  trace.filterMap (fun c => match c with
    | .toastError text => some text
    | _ => none)

/-- The six checks, in the words of the claim: a vehicle type is chosen;
vehicle number, license number and bank account are not blank; the Aadhar
number is not blank and has length 12; the IFSC code is not blank and has
length 11. -/
def checksPass (formData : FormData) : Prop :=
  formData.vehicleType ≠ "" ∧
  trim formData.vehicleNumber ≠ "" ∧
  trim formData.licenseNumber ≠ "" ∧
  (trim formData.aadharNumber ≠ "" ∧ length formData.aadharNumber = 12) ∧
  trim formData.bankAccount ≠ "" ∧
  (trim formData.ifscCode ≠ "" ∧ length formData.ifscCode = 11)

/-- A server that accepts every registration. -/
def acceptingEnv : Env := ⟨fun _ _ => .responds true (.data none), none⟩

/-- A complete form; the Aadhar number has a leading blank and length 12. -/
def completeForm : FormData :=
  ⟨"Bike", "KA01AB1234", "DL0420110149646", " 23456789012", "1234567890", "SBIN0001234"⟩

/-- The same form with an Aadhar number of 11 digits and an IFSC code of 10
characters. -/
def shortAadharForm : FormData :=
  ⟨"Bike", "KA01AB1234", "DL0420110149646", "12345678901", "1234567890", "SBIN000123"⟩

end RiderRegistration

/-!
# Network diagnostic

A shallow embedding of `runNetworkDiagnostic` in `src/utils/networkDiagnostic.js`.
The four probes and the clock are an explicit environment; the errors caught
are taken to be objects.
-/

namespace NetworkDiagnostic

/-- A value the function passes on without looking into it, as text. -/
abbrev Json := String

/-- An error caught by a probe, seen through `error.name` and
`error.message`. -/
structure ProbeError where
  name : Option String
  message : Option String
  deriving DecidableEq, Repr

/-- The outcome of `fetch` followed by `response.json()` (tests 1 and 2). -/
inductive JsonProbe where
  | fetchRejects (error : ProbeError)
  | jsonRejects (error : ProbeError)
  | data (json : Json)
  deriving DecidableEq, Repr

/-- The outcome of `fetch` followed by three `response.headers.get` (test 3). -/
inductive HeadersProbe where
  | fetchRejects (error : ProbeError)
  | headers (server via xPoweredBy : Option String)
  deriving DecidableEq, Repr

/-- The outcome of the `fetch` of test 4: `response.ok` and `response.status`. -/
inductive StatusProbe where
  | fetchRejects (error : ProbeError)
  | responds (ok : Bool) (status : Nat)
  deriving DecidableEq, Repr

/-- The object `networkInfo` (lines 125-136); `connection` is `none` for
`'Not available'`. -/
structure NetworkInfo where
  userAgent : String
  online : Bool
  connection : Option Json
  language : String
  cookieEnabled : Bool
  deriving DecidableEq, Repr

/-- The `details` property of an entry. -/
inductive Details where
  | data (json : Json)
  | errorInfo (type message : Option String)
  | headers (server via xPoweredBy : Option String)
  | networkInfo (info : NetworkInfo)
  deriving DecidableEq, Repr

/-- An entry of `results.tests`; a property an entry does not have is `none`. -/
structure Test where
  name : String
  status : String
  latency : Option String
  error : Option (Option String)
  statusCode : Option Nat
  details : Option Details
  deriving DecidableEq, Repr

/-- The object `results`. -/
structure Results where
  timestamp : String
  tests : List Test
  summary : String
  deriving DecidableEq, Repr

/-- What one run observes: the clock, the four probes and `navigator`. -/
structure Env where
  timestamp : String
  startTime : Int
  endTime : Int
  basic : JsonProbe
  cors : JsonProbe
  serverHeaders : HeadersProbe
  socket : StatusProbe
  navigator : NetworkInfo

/-- Test 1 (lines 19-47): the entry pushed by the `try` block when `fetch` and
`response.json()` both resolve, by the `catch` block otherwise. -/
def basicConnectivity (env : Env) : Test :=
  match env.basic with
  | .data json =>
    ⟨"Basic Connectivity", "PASS", some (toString (env.endTime - env.startTime) ++ "ms"), none,
      none, some (.data json)⟩
  | .fetchRejects error =>
    ⟨"Basic Connectivity", "FAIL", none, some error.message, none,
      some (.errorInfo error.name error.message)⟩
  | .jsonRejects error =>
    ⟨"Basic Connectivity", "FAIL", none, some error.message, none,
      some (.errorInfo error.name error.message)⟩

/-- Test 2 (lines 50-75). -/
def corsWithCredentials (env : Env) : Test :=
  match env.cors with
  | .data json => ⟨"CORS with Credentials", "PASS", none, none, none, some (.data json)⟩
  | .fetchRejects error => ⟨"CORS with Credentials", "FAIL", none, some error.message, none, none⟩
  | .jsonRejects error => ⟨"CORS with Credentials", "FAIL", none, some error.message, none, none⟩

/-- Test 3 (lines 78-100): passes as soon as `fetch` resolves. -/
def serverHeaders (env : Env) : Test :=
  match env.serverHeaders with
  | .headers server via xPoweredBy =>
    ⟨"Server Headers", "PASS", none, none, none, some (.headers server via xPoweredBy)⟩
  | .fetchRejects error => ⟨"Server Headers", "FAIL", none, some error.message, none, none⟩

/-- Test 4 (lines 103-122): passes when `fetch` resolves with `response.ok`. -/
def socketEndpoint (env : Env) : Test :=
  match env.socket with
  | .responds ok status =>
    ⟨"Socket.IO Endpoint", if ok then "PASS" else "FAIL", none, none, some status, none⟩
  | .fetchRejects error => ⟨"Socket.IO Endpoint", "FAIL", none, some error.message, none, none⟩

/-- Test 5 (lines 125-142), always pushed with status `INFO`. -/
def networkInformation (env : Env) : Test :=
  ⟨"Network Information", "INFO", none, none, none, some (.networkInfo env.navigator)⟩

/-- The constant `passCount` (line 146). -/
def passCount (tests : List Test) : Nat := (tests.filter (fun t => t.status == "PASS")).length

/-- The constant `failCount` (line 147). -/
def failCount (tests : List Test) : Nat := (tests.filter (fun t => t.status == "FAIL")).length

/-- The text assigned to `results.summary` (lines 149-155). -/
def summarize (tests : List Test) : String :=
  if failCount tests = 0 then "✅ All tests passed! Your network should work fine."
  else if passCount tests = 0 then "❌ All tests failed! Your network cannot reach the server."
  else "⚠️ " ++ toString (passCount tests) ++ " passed, " ++ toString (failCount tests) ++
    " failed. Partial connectivity."

/-- The function `runNetworkDiagnostic` (networkDiagnostic.js lines 4-162): the
object it returns.  Each `let tests` is one `results.tests.push`; the console
output is left out. -/
def runNetworkDiagnostic (env : Env) : Results :=
  let tests : List Test := []
  let tests := tests ++ [basicConnectivity env]
  let tests := tests ++ [corsWithCredentials env]
  let tests := tests ++ [serverHeaders env]
  let tests := tests ++ [socketEndpoint env]
  let tests := tests ++ [networkInformation env]
  ⟨env.timestamp, tests, summarize tests⟩

/-- A run in which every probe succeeds. -/
def reachableEnv : Env :=
  ⟨"2026-01-01T00:00:00.000Z", 1000, 1042, .data "ok", .data "ok", .headers none none none,
    .responds true 200, ⟨"Mozilla/5.0", true, none, "en-IN", true⟩⟩

end NetworkDiagnostic

namespace PaymentCallback

/-! ## Unfolding the handler -/

theorem handlePaymentCallback_eq (env : Env) (sp : SearchParams) :
    handlePaymentCallback env sp =
      tryFinally (tryCatch (tryBlock env sp) (catchBlock env)) (call (.setProcessing false)) :=
  rfl

theorem bind_mk_ok {α β : Type} (t : List Effect) (a : α) (f : α → Js β) :
    (Js.mk t (Except.ok a) >>= f) = ⟨t ++ (f a).trace, (f a).result⟩ := rfl

theorem bind_mk_error {α β : Type} (t : List Effect) (e : JsError) (f : α → Js β) :
    (Js.mk t (Except.error e : Except JsError α) >>= f) = ⟨t, Except.error e⟩ := rfl

theorem call_eq (e : Effect) : call e = ⟨[e], Except.ok ()⟩ := rfl

theorem callMay_none (e : Effect) : callMay e none = ⟨[e], Except.ok ()⟩ := rfl

theorem callMay_some (e : Effect) (err : JsError) :
    callMay e (some err) = ⟨[e], Except.error err⟩ := rfl

theorem throw_eq {α : Type} (e : JsError) :
    (throw e : Js α) = ⟨[], Except.error e⟩ := rfl

/-- The trace of the whole handler, from the completions of its blocks. -/
theorem handlePaymentCallback_trace (env : Env) (sp : SearchParams) :
    (handlePaymentCallback env sp).trace =
      (tryBlock env sp).trace ++
        (match (tryBlock env sp).result with
          | .ok _ => []
          | .error e => (catchBlock env e).trace) ++ [.setProcessing false] := by
  rw [handlePaymentCallback_eq]
  simp only [tryFinally, MonadFinally.tryFinally', tryCatch, MonadExcept.tryCatch, tryCatchThe,
    MonadExceptOf.tryCatch, Js.tryFinally, Js.tryCatch, Functor.map, call_eq]
  cases h : (tryBlock env sp).result with
  | ok a => simp [Js.bind]
  | error e =>
    cases h2 : (catchBlock env e).result with
    | ok a => simp [h2, Js.bind]
    | error e2 => simp [h2, Js.bind]

/-- The completion of the whole handler: an error escapes only from the
`catch` block. -/
theorem handlePaymentCallback_result (env : Env) (sp : SearchParams) :
    (handlePaymentCallback env sp).result =
      (match (tryBlock env sp).result with
        | .ok _ => .ok ()
        | .error e => (catchBlock env e).result) := by
  rw [handlePaymentCallback_eq]
  simp only [tryFinally, MonadFinally.tryFinally', tryCatch, MonadExcept.tryCatch, tryCatchThe,
    MonadExceptOf.tryCatch, Js.tryFinally, Js.tryCatch, Functor.map, call_eq]
  cases h : (tryBlock env sp).result with
  | ok a => simp [Js.bind]
  | error e =>
    cases h2 : (catchBlock env e).result with
    | ok a => simp [h2, Js.bind]
    | error e2 => simp [h2, Js.bind]

theorem catchBlock_notifies (env : Env) (hn : env.notifies) (error : JsError) :
    catchBlock env error =
      ⟨[.consoleError "❌ Payment callback error:" error, .setPaymentStatus "failed",
        .toast ⟨.error, orElse error.message "Failed to process payment", "confirm-order"⟩,
        .setTimeout "/" 2000], .ok ()⟩ := by
  simp [catchBlock, toastCall, hn _, call_eq, callMay_none, bind_mk_ok]

theorem rpcCalls_catchBlock (env : Env) (error : JsError) :
    rpcCalls (catchBlock env error).trace = [] := by
  unfold catchBlock toastCall
  cases env.toast ⟨.error, orElse error.message "Failed to process payment", "confirm-order"⟩ <;>
    simp [call_eq, callMay_none, callMay_some, bind_mk_ok, bind_mk_error, rpcCalls]

theorem rpcCalls_tryBlock (env : Env) (sp : SearchParams) :
    rpcCalls (tryBlock env sp).trace =
      if sp.get "payment" = some "success" ∧ truthy (sp.get "ref") = true ∧
          env.toast ⟨.loading, "Confirming your order...", "confirm-order"⟩ = none then
        [.confirmOrder (sp.get "ref") (sp.get "razorpay_order_id")
          (sp.get "razorpay_payment_id") (sp.get "razorpay_signature")]
      else [] := by
  unfold tryBlock toastCall apiConfirmOrder
  generalize sp.get "payment" = payment
  generalize sp.get "ref" = ref
  generalize sp.get "razorpay_order_id" = oid
  generalize sp.get "razorpay_payment_id" = pid
  generalize sp.get "razorpay_signature" = sig
  by_cases h1 : payment = some "success" ∧ truthy ref = true
  · cases ht : env.toast ⟨.loading, "Confirming your order...", "confirm-order"⟩ with
    | some e0 =>
      simp [h1, call_eq, callMay_none, callMay_some, bind_mk_ok, bind_mk_error, rpcCalls]
    | none =>
      cases hr : env.confirmOrder ref oid pid sig with
      | rejects e1 =>
        simp [h1, hr, call_eq, callMay_none, callMay_some, bind_mk_ok, bind_mk_error, rpcCalls]
      | resolves resp =>
        cases hs : resp.success with
        | false =>
          simp [h1, hr, hs, call_eq, callMay_none, callMay_some, bind_mk_ok, bind_mk_error,
            rpcCalls, throw_eq]
        | true =>
          cases env.toast ⟨.success, "Order placed successfully! 🎉", "confirm-order"⟩ <;>
          cases env.clearCart <;> cases env.removeItem <;>
          simp [h1, hr, hs, call_eq, callMay_none, callMay_some, bind_mk_ok, bind_mk_error,
            rpcCalls]
  · by_cases h2 : payment = some "failed"
    · cases env.toast ⟨.error, "Payment failed. Please try again.", "confirm-order"⟩ <;>
        simp [h1, h2, call_eq, callMay_none, callMay_some, bind_mk_ok, bind_mk_error, rpcCalls]
    · cases env.toast ⟨.error, "Invalid payment callback", "confirm-order"⟩ <;>
        simp [h1, h2, call_eq, callMay_none, callMay_some, bind_mk_ok, bind_mk_error,
          rpcCalls] <;>
        exact fun a b => absurd ⟨a, b⟩ h1

theorem tryBlock_rejects (env : Env) (sp : SearchParams) (e : JsError)
    (hpay : sp.get "payment" = some "success") (href : truthy (sp.get "ref") = true)
    (hload : env.toast confirmingToast = none) (hrpc : rpcResult env sp = .rejects e) :
    tryBlock env sp = ⟨[receivedLog sp, .toast confirmingToast, confirmCall sp], .error e⟩ := by
  unfold rpcResult at hrpc
  unfold confirmingToast at hload
  simp [tryBlock, toastCall, apiConfirmOrder, hpay, href, hload, hrpc, call_eq, callMay_none,
    bind_mk_ok, bind_mk_error, receivedLog, confirmCall, confirmingToast]

theorem tryBlock_unconfirmed (env : Env) (sp : SearchParams) (resp : Response)
    (hpay : sp.get "payment" = some "success") (href : truthy (sp.get "ref") = true)
    (hload : env.toast confirmingToast = none) (hrpc : rpcResult env sp = .resolves resp)
    (hs : resp.success = false) :
    tryBlock env sp = ⟨[receivedLog sp, .toast confirmingToast, confirmCall sp],
      .error ⟨some "Failed to confirm order"⟩⟩ := by
  unfold rpcResult at hrpc
  unfold confirmingToast at hload
  simp [tryBlock, toastCall, apiConfirmOrder, hpay, href, hload, hrpc, hs, call_eq,
    callMay_none, bind_mk_ok, bind_mk_error, receivedLog, confirmCall, confirmingToast,
    throw_eq]

theorem tryBlock_confirmed (env : Env) (sp : SearchParams) (resp : Response)
    (hpay : sp.get "payment" = some "success") (href : truthy (sp.get "ref") = true)
    (hload : env.toast confirmingToast = none) (hrpc : rpcResult env sp = .resolves resp)
    (hs : resp.success = true) (hplaced : env.toast placedToast = none)
    (hcart : env.clearCart = none) (hrem : env.removeItem = none) :
    tryBlock env sp = ⟨[receivedLog sp, .toast confirmingToast, confirmCall sp,
      .setPaymentStatus "success", .toast placedToast, .clearCart, .removeItem "pendingOrder",
      .setTimeout ("/track-order/" ++ interpolate (sp.get "ref")) 1000], .ok ()⟩ := by
  unfold rpcResult at hrpc
  unfold confirmingToast at hload
  unfold placedToast at hplaced
  simp [tryBlock, toastCall, apiConfirmOrder, hpay, href, hload, hrpc, hs, hplaced, hcart, hrem,
    call_eq, callMay_none, bind_mk_ok, bind_mk_error, receivedLog, confirmCall, confirmingToast,
    placedToast]

theorem tryBlock_cartThrows (env : Env) (sp : SearchParams) (resp : Response) (err : JsError)
    (hpay : sp.get "payment" = some "success") (href : truthy (sp.get "ref") = true)
    (hload : env.toast confirmingToast = none) (hrpc : rpcResult env sp = .resolves resp)
    (hs : resp.success = true) (hplaced : env.toast placedToast = none)
    (hcart : env.clearCart = some err) :
    tryBlock env sp = ⟨[receivedLog sp, .toast confirmingToast, confirmCall sp,
      .setPaymentStatus "success", .toast placedToast, .clearCart], .error err⟩ := by
  unfold rpcResult at hrpc
  unfold confirmingToast at hload
  unfold placedToast at hplaced
  simp [tryBlock, toastCall, apiConfirmOrder, hpay, href, hload, hrpc, hs, hplaced, hcart,
    call_eq, callMay_none, callMay_some, bind_mk_ok, bind_mk_error, receivedLog, confirmCall,
    confirmingToast, placedToast]

theorem tryBlock_removeThrows (env : Env) (sp : SearchParams) (resp : Response) (err : JsError)
    (hpay : sp.get "payment" = some "success") (href : truthy (sp.get "ref") = true)
    (hload : env.toast confirmingToast = none) (hrpc : rpcResult env sp = .resolves resp)
    (hs : resp.success = true) (hplaced : env.toast placedToast = none)
    (hcart : env.clearCart = none) (hrem : env.removeItem = some err) :
    tryBlock env sp = ⟨[receivedLog sp, .toast confirmingToast, confirmCall sp,
      .setPaymentStatus "success", .toast placedToast, .clearCart, .removeItem "pendingOrder"],
      .error err⟩ := by
  unfold rpcResult at hrpc
  unfold confirmingToast at hload
  unfold placedToast at hplaced
  simp [tryBlock, toastCall, apiConfirmOrder, hpay, href, hload, hrpc, hs, hplaced, hcart, hrem,
    call_eq, callMay_none, callMay_some, bind_mk_ok, bind_mk_error, receivedLog, confirmCall,
    confirmingToast, placedToast]

theorem tryBlock_failed (env : Env) (sp : SearchParams)
    (hpay : sp.get "payment" = some "failed") (htoast : env.toast paymentFailedToast = none) :
    tryBlock env sp = ⟨[receivedLog sp, .setPaymentStatus "failed", .toast paymentFailedToast,
      .setTimeout "/" 2000], .ok ()⟩ := by
  unfold paymentFailedToast at htoast
  simp [tryBlock, toastCall, hpay, htoast, call_eq, callMay_none, bind_mk_ok, receivedLog,
    paymentFailedToast]

theorem tryBlock_invalid (env : Env) (sp : SearchParams)
    (h1 : ¬ (sp.get "payment" = some "success" ∧ truthy (sp.get "ref") = true))
    (h2 : sp.get "payment" ≠ some "failed") (htoast : env.toast invalidToast = none) :
    tryBlock env sp = ⟨[receivedLog sp, .toast invalidToast, .navigate "/"], .ok ()⟩ := by
  unfold invalidToast at htoast
  unfold tryBlock
  simp only [if_neg h1, if_neg h2]
  simp [toastCall, htoast, call_eq, callMay_none, bind_mk_ok, receivedLog, invalidToast]

theorem effect_ready (env : Env) (sp : SearchParams) (p : Bool) (s : Option String) :
    effect env sp false ⟨false, p, s⟩ =
      ((handlePaymentCallback env sp).trace.foldl Instance.apply ⟨true, p, s⟩,
        (handlePaymentCallback env sp).trace) := by
  simp [effect]

theorem effect_tripped (env : Env) (sp : SearchParams) (p : Bool) (s : Option String) :
    effect env sp false ⟨true, p, s⟩ = (⟨true, p, s⟩, []) := by
  simp [effect]

theorem effect_loading (env : Env) (sp : SearchParams) (inst : Instance) :
    effect env sp true inst = (inst, [waitingLog]) := by
  simp [effect, waitingLog]

theorem foldl_apply_hasProcessed (trace : List Effect) (inst : Instance) :
    (trace.foldl Instance.apply inst).hasProcessed = inst.hasProcessed := by
  induction trace generalizing inst with
  | nil => rfl
  | cons e rest ih =>
    rw [List.foldl_cons, ih]
    cases e <;> rfl

theorem invocations_tripped (sp : SearchParams) (later : List Env) (p : Bool)
    (s : Option String) :
    invocations sp (later.map (fun env => (false, env))) ⟨true, p, s⟩ = (⟨true, p, s⟩, []) := by
  induction later with
  | nil => rfl
  | cons env rest ih => simp [invocations, effect_tripped, ih]

theorem invocations_loading (sp : SearchParams) (blocked : List Env) (rest : List (Bool × Env))
    (inst : Instance) :
    invocations sp (blocked.map (fun env => (true, env)) ++ rest) inst =
      ((invocations sp rest inst).1,
        List.replicate blocked.length waitingLog ++ (invocations sp rest inst).2) := by
  induction blocked with
  | nil => rfl
  | cons env more ih => simp [invocations, effect_loading, ih, List.replicate_succ]

theorem rpcCalls_handlePaymentCallback (env : Env) (sp : SearchParams) :
    rpcCalls (handlePaymentCallback env sp).trace =
      if sp.get "payment" = some "success" ∧ truthy (sp.get "ref") = true ∧
          env.toast confirmingToast = none then [confirmCall sp] else [] := by
  rw [handlePaymentCallback_trace]
  have hsplit : ∀ a b : List Effect, rpcCalls (a ++ b) = rpcCalls a ++ rpcCalls b := by
    intro a b
    simp [rpcCalls]
  rw [hsplit, hsplit, rpcCalls_tryBlock]
  have hcatch : rpcCalls (match (tryBlock env sp).result with
      | .ok _ => []
      | .error e => (catchBlock env e).trace) = [] := by
    cases (tryBlock env sp).result with
    | ok a => rfl
    | error e => exact rpcCalls_catchBlock env e
  rw [hcatch]
  simp [rpcCalls, confirmCall, confirmingToast]

theorem handler_of_ok (env : Env) (sp : SearchParams) (t : List Effect)
    (h : tryBlock env sp = ⟨t, .ok ()⟩) :
    (handlePaymentCallback env sp).trace = t ++ [.setProcessing false] ∧
      (handlePaymentCallback env sp).result = .ok () := by
  rw [handlePaymentCallback_trace, handlePaymentCallback_result, h]
  simp

theorem handler_of_error (env : Env) (sp : SearchParams) (t : List Effect) (e : JsError)
    (hn : env.notifies) (h : tryBlock env sp = ⟨t, .error e⟩) :
    (handlePaymentCallback env sp).trace = t ++ [.consoleError "❌ Payment callback error:" e,
        .setPaymentStatus "failed",
        .toast ⟨.error, orElse e.message "Failed to process payment", "confirm-order"⟩,
        .setTimeout "/" 2000, .setProcessing false] ∧
      (handlePaymentCallback env sp).result = .ok () := by
  rw [handlePaymentCallback_trace, handlePaymentCallback_result, h]
  simp [catchBlock_notifies env hn]

theorem truthy_some (r : String) (hr : r ≠ "") : truthy (some r) = true := by
  simp [truthy, hr]

theorem effect_mount (env : Env) (sp : SearchParams) :
    effect env sp false Instance.mount =
      ((handlePaymentCallback env sp).trace.foldl Instance.apply ⟨true, true, none⟩,
        (handlePaymentCallback env sp).trace) :=
  effect_ready env sp true none

theorem track_ne_home (r : String) : "/track-order/" ++ r ≠ "/" := by
  intro h
  have hlen := congrArg String.length h
  rw [String.length_append] at hlen
  have h13 : "/track-order/".length = 13 := by decide
  have h1 : "/".length = 1 := by decide
  omega

/-! ## The claims -/

/-- C1: on one mounted instance, any number of invocations of the effect with
`loading = false` make the calls of a single run of `handlePaymentCallback`
and no more, so at most one `api.confirmOrder` call, whatever the
collaborators do: the first invocation sets `hasProcessed`, the guard is still
set at the end, and an invocation on an instance whose guard is set makes no
call and leaves the instance as it is. -/
theorem effect_runs_at_most_once (sp : SearchParams) (first : Env) (later : List Env) :
    (effect first sp false Instance.mount).1.hasProcessed = true ∧
    (invocations sp ((false, first) :: later.map (fun env => (false, env))) Instance.mount).2 =
      (handlePaymentCallback first sp).trace ∧
    (invocations sp ((false, first) :: later.map (fun env => (false, env))) Instance.mount).1 =
      (effect first sp false Instance.mount).1 ∧
    (invocations sp ((false, first) :: later.map
      (fun env => (false, env))) Instance.mount).1.hasProcessed = true ∧
    (rpcCalls (invocations sp ((false, first) :: later.map
      (fun env => (false, env))) Instance.mount).2).length ≤ 1 ∧
    (∀ (env : Env) (p : Bool) (s : Option String),
      effect env sp false ⟨true, p, s⟩ = (⟨true, p, s⟩, [])) := by
  have hfirst : (effect first sp false Instance.mount).1.hasProcessed = true := by
    simp [Instance.mount, effect_ready, foldl_apply_hasProcessed]
  have hshape : ∃ p s, (effect first sp false Instance.mount).1 = ⟨true, p, s⟩ := by
    refine ⟨(effect first sp false Instance.mount).1.processing,
      (effect first sp false Instance.mount).1.paymentStatus, ?_⟩
    rw [← hfirst]
  obtain ⟨p, s, hps⟩ := hshape
  have hall : invocations sp ((false, first) :: later.map (fun env => (false, env)))
      Instance.mount = ((effect first sp false Instance.mount).1,
        (handlePaymentCallback first sp).trace) := by
    simp only [invocations]
    rw [hps, invocations_tripped]
    simp [Instance.mount, effect_ready]
  refine ⟨hfirst, ?_, ?_, ?_, ?_, ?_⟩
  · rw [hall]
  · rw [hall]
  · rw [hall]
    exact hfirst
  · rw [hall, rpcCalls_handlePaymentCallback]
    split <;> simp
  · intro env p s
    exact effect_tripped env sp p s

/-- C2: an invocation of the effect while `loading = true` only logs the
waiting line to the console: it calls no RPC, shows no notification, writes neither
`paymentStatus` nor `processing`, clears no cart, removes no marker, schedules
and performs no navigation, and returns the instance unchanged, guard
included; after any number of such invocations, the first invocation with
`loading = false` leaves the instance and makes the calls it would have made
without them. -/
theorem effect_blocked_while_loading (sp : SearchParams) (env : Env) (inst : Instance)
    (blocked : List Env) :
    effect env sp true inst = (inst, [waitingLog]) ∧
    (effect env sp true inst).1.hasProcessed = inst.hasProcessed ∧
    (∀ e ∈ (effect env sp true inst).2, e.isLog = true) ∧
    rpcCalls (effect env sp true inst).2 = [] ∧
    toasts (effect env sp true inst).2 = [] ∧
    phaseWrites (effect env sp true inst).2 = [] ∧
    processingWrites (effect env sp true inst).2 = [] ∧
    cartClears (effect env sp true inst).2 = 0 ∧
    removals (effect env sp true inst).2 = [] ∧
    timers (effect env sp true inst).2 = [] ∧
    navigations (effect env sp true inst).2 = [] ∧
    (invocations sp (blocked.map (fun b => (true, b)) ++ [(false, env)]) inst).1 =
      (effect env sp false inst).1 ∧
    (invocations sp (blocked.map (fun b => (true, b)) ++ [(false, env)]) inst).2 =
      List.replicate blocked.length waitingLog ++ (effect env sp false inst).2 := by
  have hone : invocations sp [(false, env)] inst =
      ((effect env sp false inst).1, (effect env sp false inst).2) := by
    simp [invocations]
  rw [effect_loading, invocations_loading, hone]
  simp [waitingLog, rpcCalls, toasts, phaseWrites, processingWrites, cartClears, removals,
    timers, navigations, Effect.isLog]

/-- C3: when the progress notification does not throw, the confirmation calls
of one run are exactly `[api.confirmOrder(ref, ids)]`, with the URL's `ref` and
its three gateway identifiers as read (absent ones as `null`), if `payment` is
exactly `success` and `ref` is present and non-empty, and none otherwise. -/
theorem confirmOrder_calls (env : Env) (sp : SearchParams)
    (hload : env.toast ⟨.loading, "Confirming your order...", "confirm-order"⟩ = none) :
    rpcCalls (handlePaymentCallback env sp).trace =
      if sp.get "payment" = some "success" ∧ sp.get "ref" ≠ none ∧ sp.get "ref" ≠ some "" then
        [.confirmOrder (sp.get "ref") (sp.get "razorpay_order_id")
          (sp.get "razorpay_payment_id") (sp.get "razorpay_signature")]
      else [] := by
  rw [rpcCalls_handlePaymentCallback]
  have href : truthy (sp.get "ref") = true ↔ (sp.get "ref" ≠ none ∧ sp.get "ref" ≠ some "") := by
    cases sp.get "ref" with
    | none => simp [truthy]
    | some r => simp [truthy]
  simp only [confirmingToast, hload, and_true, href, confirmCall]

/-- Witness for C3: the redirect of the round-trip example makes the one
call with `ORD123`, `O1`, `P1`, `S1`. -/
theorem confirmOrder_calls_witness :
    confirmingEnv.toast ⟨.loading, "Confirming your order...", "confirm-order"⟩ = none ∧
    rpcCalls (handlePaymentCallback confirmingEnv successUrl).trace =
      [.confirmOrder (some "ORD123") (some "O1") (some "P1") (some "S1")] :=
  ⟨rfl, (confirmOrder_calls confirmingEnv successUrl rfl).trans (by decide)⟩

/-- C4: for `payment=success` with a non-empty `ref`, when the RPC resolves
with a truthy `success`, `clearCart()` and the marker removal do not throw and
the notifications are shown, one run makes exactly these calls in this order:
the log line, the "confirming" notification, the RPC, `setPaymentStatus` with
`success`, the "success" notification, `clearCart()`, removal of
`pendingOrder`, a timer of 1000 ms navigating to `/track-order/<ref>`, and
`setProcessing(false)`.  So the instance ends with `paymentStatus = 'success'`,
the cart is cleared once, the marker is removed once, the only navigation is
the scheduled one to the tracking view, and none goes to `/`. -/
theorem confirmed_order_run (env : Env) (sp : SearchParams) (r : String) (resp : Response)
    (hpay : sp.get "payment" = some "success") (href : sp.get "ref" = some r) (hr : r ≠ "")
    (hrpc : rpcResult env sp = .resolves resp) (hs : resp.success = true)
    (hcart : env.clearCart = none) (hrem : env.removeItem = none) (hn : env.notifies) :
    (handlePaymentCallback env sp).trace =
      [receivedLog sp, .toast confirmingToast,
        .confirmOrder (some r) (sp.get "razorpay_order_id") (sp.get "razorpay_payment_id")
          (sp.get "razorpay_signature"),
        .setPaymentStatus "success", .toast placedToast, .clearCart,
        .removeItem "pendingOrder", .setTimeout ("/track-order/" ++ r) 1000,
        .setProcessing false] ∧
    (handlePaymentCallback env sp).result = .ok () ∧
    (effect env sp false Instance.mount).1 = ⟨true, false, some "success"⟩ ∧
    phaseWrites (handlePaymentCallback env sp).trace = ["success"] ∧
    cartClears (handlePaymentCallback env sp).trace = 1 ∧
    removals (handlePaymentCallback env sp).trace = ["pendingOrder"] ∧
    timers (handlePaymentCallback env sp).trace = [("/track-order/" ++ r, 1000)] ∧
    navigations (handlePaymentCallback env sp).trace = [] ∧
    (∀ delay : Nat, ("/", delay) ∉ timers (handlePaymentCallback env sp).trace) := by
  have hblock := tryBlock_confirmed env sp resp hpay (by rw [href]; exact truthy_some r hr)
    (hn _) hrpc hs (hn _) hcart hrem
  obtain ⟨htrace, hres⟩ := handler_of_ok env sp _ hblock
  have hfull : (handlePaymentCallback env sp).trace =
      [receivedLog sp, .toast confirmingToast,
        .confirmOrder (some r) (sp.get "razorpay_order_id") (sp.get "razorpay_payment_id")
          (sp.get "razorpay_signature"),
        .setPaymentStatus "success", .toast placedToast, .clearCart,
        .removeItem "pendingOrder", .setTimeout ("/track-order/" ++ r) 1000,
        .setProcessing false] := by
    rw [htrace]
    simp [confirmCall, href, interpolate]
  refine ⟨hfull, hres, ?_, ?_, ?_, ?_, ?_, ?_, ?_⟩
  · rw [effect_mount, hfull]
    simp [Instance.apply, receivedLog]
  · simp [hfull, phaseWrites, receivedLog]
  · simp [hfull, cartClears, receivedLog]
  · simp [hfull, removals, receivedLog]
  · simp [hfull, timers, receivedLog]
  · simp [hfull, navigations, receivedLog]
  · intro delay
    simp only [hfull, timers, receivedLog]
    simp
    intro h
    exact absurd h.symm (track_ne_home r)

/-- Witness for C4: the round-trip example of the specification. -/
theorem confirmed_order_run_witness :
    (handlePaymentCallback confirmingEnv successUrl).trace =
      [receivedLog successUrl, .toast confirmingToast,
        .confirmOrder (some "ORD123") (some "O1") (some "P1") (some "S1"),
        .setPaymentStatus "success", .toast placedToast, .clearCart,
        .removeItem "pendingOrder", .setTimeout "/track-order/ORD123" 1000,
        .setProcessing false] ∧
    (effect confirmingEnv successUrl false Instance.mount).1 = ⟨true, false, some "success"⟩ :=
  have h := confirmed_order_run confirmingEnv successUrl "ORD123" ⟨true, none⟩ (by decide)
    (by decide) (by decide) rfl rfl rfl rfl (fun _ => rfl)
  ⟨h.1, h.2.2.1⟩

/-- C5, counterexample: with the RPC confirming `ORD123` and `clearCart()`
throwing, the run ends with `paymentStatus = 'failed'`, shows the failure
notification, schedules no navigation to the tracking view and schedules the
navigation to `/`. -/
theorem cleanup_failure_changes_outcome :
    rpcResult cartDownEnv successUrl = .resolves ⟨true, none⟩ ∧
    (effect cartDownEnv successUrl false Instance.mount).1.paymentStatus = some "failed" ∧
    toasts (handlePaymentCallback cartDownEnv successUrl).trace =
      [confirmingToast, placedToast, ⟨.error, "Network Error", "confirm-order"⟩] ∧
    timers (handlePaymentCallback cartDownEnv successUrl).trace = [("/", 2000)] := by
  decide

/-- C5 as amended: for `payment=success` with a non-empty `ref` and an RPC
that resolves with a truthy `success`, if `clearCart()` throws, or
`clearCart()` completes and the marker removal throws, the error `err` reaches
the single `catch` of the handler: `paymentStatus` is written `success` and
then `failed`, the instance ends with `paymentStatus = 'failed'` and shows the
failed view, the notifications are "confirming", "success" and then the error
one with `err.message` (the generic text when it is absent or empty), the
tracking navigation is not scheduled, and the only navigation is the one to
`/` scheduled after 2000 ms.  The RPC is called once, the cart clear is
attempted once, and the marker removal is attempted only when the cart clear
completed. -/
theorem cleanup_failure_run (env : Env) (sp : SearchParams) (r : String) (resp : Response)
    (err : JsError)
    (hpay : sp.get "payment" = some "success") (href : sp.get "ref" = some r) (hr : r ≠ "")
    (hrpc : rpcResult env sp = .resolves resp) (hs : resp.success = true)
    (hn : env.notifies)
    (hthrow : env.clearCart = some err ∨ (env.clearCart = none ∧ env.removeItem = some err)) :
    phaseWrites (handlePaymentCallback env sp).trace = ["success", "failed"] ∧
    (effect env sp false Instance.mount).1 = ⟨true, false, some "failed"⟩ ∧
    render (effect env sp false Instance.mount).1 = .paymentFailed ∧
    toasts (handlePaymentCallback env sp).trace =
      [confirmingToast, placedToast,
        ⟨.error, orElse err.message "Failed to process payment", "confirm-order"⟩] ∧
    timers (handlePaymentCallback env sp).trace = [("/", 2000)] ∧
    navigations (handlePaymentCallback env sp).trace = [] ∧
    rpcCalls (handlePaymentCallback env sp).trace = [confirmCall sp] ∧
    cartClears (handlePaymentCallback env sp).trace = 1 ∧
    removals (handlePaymentCallback env sp).trace =
      (if env.clearCart = none then ["pendingOrder"] else []) ∧
    (handlePaymentCallback env sp).result = .ok () := by
  have htruthy : truthy (sp.get "ref") = true := by
    rw [href]
    exact truthy_some r hr
  rcases hthrow with hcart | ⟨hcart, hrem⟩
  · have hblock := tryBlock_cartThrows env sp resp err hpay htruthy (hn _) hrpc hs (hn _) hcart
    obtain ⟨htrace, hres⟩ := handler_of_error env sp _ err hn hblock
    refine ⟨?_, ?_, ?_, ?_, ?_, ?_, ?_, ?_, ?_, hres⟩
    · simp [htrace, phaseWrites, receivedLog, confirmCall]
    · rw [effect_mount, htrace]
      simp [Instance.apply, receivedLog, confirmCall]
    · rw [effect_mount, htrace]
      simp [Instance.apply, receivedLog, confirmCall, render]
    · simp [htrace, toasts, receivedLog, confirmCall]
    · simp [htrace, timers, receivedLog, confirmCall]
    · simp [htrace, navigations, receivedLog, confirmCall]
    · simp [htrace, rpcCalls, receivedLog, confirmCall]
    · simp [htrace, cartClears, receivedLog, confirmCall]
    · simp [htrace, removals, receivedLog, confirmCall, hcart]
  · have hblock := tryBlock_removeThrows env sp resp err hpay htruthy (hn _) hrpc hs (hn _)
      hcart hrem
    obtain ⟨htrace, hres⟩ := handler_of_error env sp _ err hn hblock
    refine ⟨?_, ?_, ?_, ?_, ?_, ?_, ?_, ?_, ?_, hres⟩
    · simp [htrace, phaseWrites, receivedLog, confirmCall]
    · rw [effect_mount, htrace]
      simp [Instance.apply, receivedLog, confirmCall]
    · rw [effect_mount, htrace]
      simp [Instance.apply, receivedLog, confirmCall, render]
    · simp [htrace, toasts, receivedLog, confirmCall]
    · simp [htrace, timers, receivedLog, confirmCall]
    · simp [htrace, navigations, receivedLog, confirmCall]
    · simp [htrace, rpcCalls, receivedLog, confirmCall]
    · simp [htrace, cartClears, receivedLog, confirmCall]
    · simp [htrace, removals, receivedLog, confirmCall, hcart]

/-- Witness for C5 as amended: the order `ORD123` confirmed by the backend,
`clearCart()` rejecting with `Error('Network Error')`. -/
theorem cleanup_failure_run_witness :
    phaseWrites (handlePaymentCallback cartDownEnv successUrl).trace = ["success", "failed"] ∧
    removals (handlePaymentCallback cartDownEnv successUrl).trace = [] :=
  have h := cleanup_failure_run cartDownEnv successUrl "ORD123" ⟨true, none⟩
    ⟨some "Network Error"⟩ (by decide) (by decide) (by decide) rfl rfl (fun _ => rfl)
    (Or.inl rfl)
  ⟨h.1, h.2.2.2.2.2.2.2.2.1⟩

/-- C6, counterexample: for a URL with no `payment` parameter the run never
calls `setPaymentStatus`, and `paymentStatus` is still `null` at the end; and
for the confirmed order `ORD123` with `clearCart()` throwing, `paymentStatus`
is written twice, `success` and then `failed`. -/
theorem invalid_callback_writes_no_phase :
    SearchParams.get [] "payment" = none ∧
    phaseWrites (handlePaymentCallback confirmingEnv []).trace = [] ∧
    (effect confirmingEnv [] false Instance.mount).1.paymentStatus = none ∧
    phaseWrites (handlePaymentCallback cartDownEnv successUrl).trace = ["success", "failed"] := by
  decide

/-- C6 as amended: when no notification, cart clear or marker removal throws,
one run writes `paymentStatus` at most once: once with `success` when `payment`
is `success`, `ref` is non-empty and the RPC confirms; once with `failed` when
`payment` is `success`, `ref` is non-empty and the RPC does not confirm, or
when `payment` is `failed`; and not at all on the invalid-callback branch,
where `paymentStatus` stays `null`.  The instance ends with the value written,
if any, and with `processing = false`, so the view shown is the success view
exactly in the first case and the failed view in all others. -/
theorem phase_written_at_most_once (env : Env) (sp : SearchParams) (hn : env.notifies)
    (hcart : env.clearCart = none) (hrem : env.removeItem = none) :
    phaseWrites (handlePaymentCallback env sp).trace =
      (if sp.get "payment" = some "success" ∧ truthy (sp.get "ref") = true then
        (if confirms env sp = true then ["success"] else ["failed"])
      else if sp.get "payment" = some "failed" then ["failed"] else []) ∧
    (phaseWrites (handlePaymentCallback env sp).trace).length ≤ 1 ∧
    (effect env sp false Instance.mount).1.paymentStatus =
      (phaseWrites (handlePaymentCallback env sp).trace).head? ∧
    (effect env sp false Instance.mount).1.processing = false ∧
    render (effect env sp false Instance.mount).1 =
      (if sp.get "payment" = some "success" ∧ truthy (sp.get "ref") = true ∧
          confirms env sp = true then .paymentSuccessful else .paymentFailed) := by
  by_cases h1 : sp.get "payment" = some "success" ∧ truthy (sp.get "ref") = true
  · cases hrpc : rpcResult env sp with
    | rejects e =>
      have hblock := tryBlock_rejects env sp e h1.1 h1.2 (hn _) hrpc
      obtain ⟨htrace, -⟩ := handler_of_error env sp _ e hn hblock
      rw [effect_mount, htrace]
      simp [h1, confirms, hrpc, phaseWrites, receivedLog, confirmCall, Instance.apply, render]
    | resolves resp =>
      cases hs : resp.success with
      | false =>
        have hblock := tryBlock_unconfirmed env sp resp h1.1 h1.2 (hn _) hrpc hs
        obtain ⟨htrace, -⟩ := handler_of_error env sp _ _ hn hblock
        rw [effect_mount, htrace]
        simp [h1, confirms, hrpc, hs, phaseWrites, receivedLog, confirmCall, Instance.apply,
          render]
      | true =>
        have hblock := tryBlock_confirmed env sp resp h1.1 h1.2 (hn _) hrpc hs (hn _) hcart hrem
        obtain ⟨htrace, -⟩ := handler_of_ok env sp _ hblock
        rw [effect_mount, htrace]
        simp [h1, confirms, hrpc, hs, phaseWrites, receivedLog, confirmCall, Instance.apply,
          render]
  · by_cases h2 : sp.get "payment" = some "failed"
    · have hblock := tryBlock_failed env sp h2 (hn _)
      obtain ⟨htrace, -⟩ := handler_of_ok env sp _ hblock
      rw [effect_mount, htrace]
      simp [h2, phaseWrites, receivedLog, Instance.apply, render]
    · have hblock := tryBlock_invalid env sp h1 h2 (hn _)
      obtain ⟨htrace, -⟩ := handler_of_ok env sp _ hblock
      rw [effect_mount, htrace]
      rw [if_neg h1, if_neg h2, if_neg (fun h => h1 ⟨h.1, h.2.1⟩)]
      simp [phaseWrites, receivedLog, Instance.apply, render]

/-- Witness for C6 as amended: the URL without parameters, where nothing is
written and the failed view is shown. -/
theorem phase_written_at_most_once_witness :
    phaseWrites (handlePaymentCallback confirmingEnv []).trace = [] ∧
    render (effect confirmingEnv [] false Instance.mount).1 = .paymentFailed :=
  have h := phase_written_at_most_once confirmingEnv [] (fun _ => rfl) rfl rfl
  ⟨h.1.trans (by decide), h.2.2.2.2.trans (by decide)⟩

/-- C7: for `payment=success` with a non-empty `ref`, when the RPC resolves
without a truthy `success` or raises, and the notifications are shown, one run
makes these calls in this order: the log line, the "confirming" notification,
the RPC (once), `console.error`, `setPaymentStatus` with `failed`, one error
notification, a timer of 2000 ms navigating to `/`, `setProcessing(false)`.
So the instance ends with `paymentStatus = 'failed'`, the cart is not cleared,
the marker is not removed, and the only navigation is the scheduled one to
`/`. -/
theorem unconfirmed_order_run (env : Env) (sp : SearchParams) (r : String)
    (hpay : sp.get "payment" = some "success") (href : sp.get "ref" = some r) (hr : r ≠ "")
    (hn : env.notifies)
    (hfail : (∃ resp, rpcResult env sp = .resolves resp ∧ resp.success = false) ∨
      (∃ e, rpcResult env sp = .rejects e)) :
    (∃ err : JsError, (handlePaymentCallback env sp).trace =
      [receivedLog sp, .toast confirmingToast,
        .confirmOrder (some r) (sp.get "razorpay_order_id") (sp.get "razorpay_payment_id")
          (sp.get "razorpay_signature"),
        .consoleError "❌ Payment callback error:" err, .setPaymentStatus "failed",
        .toast ⟨.error, orElse err.message "Failed to process payment", "confirm-order"⟩,
        .setTimeout "/" 2000, .setProcessing false]) ∧
    (effect env sp false Instance.mount).1 = ⟨true, false, some "failed"⟩ ∧
    phaseWrites (handlePaymentCallback env sp).trace = ["failed"] ∧
    rpcCalls (handlePaymentCallback env sp).trace =
      [.confirmOrder (some r) (sp.get "razorpay_order_id") (sp.get "razorpay_payment_id")
        (sp.get "razorpay_signature")] ∧
    cartClears (handlePaymentCallback env sp).trace = 0 ∧
    removals (handlePaymentCallback env sp).trace = [] ∧
    (∃ text : String, toasts (handlePaymentCallback env sp).trace =
      [confirmingToast, ⟨.error, text, "confirm-order"⟩]) ∧
    timers (handlePaymentCallback env sp).trace = [("/", 2000)] ∧
    navigations (handlePaymentCallback env sp).trace = [] := by
  have htruthy : truthy (sp.get "ref") = true := by
    rw [href]
    exact truthy_some r hr
  have hthrown : ∃ err, tryBlock env sp =
      ⟨[receivedLog sp, .toast confirmingToast, confirmCall sp], .error err⟩ := by
    rcases hfail with ⟨resp, hrpc, hs⟩ | ⟨e, hrpc⟩
    · exact ⟨_, tryBlock_unconfirmed env sp resp hpay htruthy (hn _) hrpc hs⟩
    · exact ⟨e, tryBlock_rejects env sp e hpay htruthy (hn _) hrpc⟩
  obtain ⟨err, hblock⟩ := hthrown
  obtain ⟨htrace, -⟩ := handler_of_error env sp _ err hn hblock
  have hfull : (handlePaymentCallback env sp).trace =
      [receivedLog sp, .toast confirmingToast,
        .confirmOrder (some r) (sp.get "razorpay_order_id") (sp.get "razorpay_payment_id")
          (sp.get "razorpay_signature"),
        .consoleError "❌ Payment callback error:" err, .setPaymentStatus "failed",
        .toast ⟨.error, orElse err.message "Failed to process payment", "confirm-order"⟩,
        .setTimeout "/" 2000, .setProcessing false] := by
    rw [htrace]
    simp [confirmCall, href]
  refine ⟨⟨err, hfull⟩, ?_, ?_, ?_, ?_, ?_,
    ⟨orElse err.message "Failed to process payment", ?_⟩, ?_, ?_⟩
  · rw [effect_mount, hfull]
    simp [Instance.apply, receivedLog]
  · simp [hfull, phaseWrites, receivedLog]
  · simp [hfull, rpcCalls, receivedLog]
  · simp [hfull, cartClears, receivedLog]
  · simp [hfull, removals, receivedLog]
  · simp [hfull, toasts, receivedLog]
  · simp [hfull, timers, receivedLog]
  · simp [hfull, navigations, receivedLog]

/-- Witness for C7: the order `ORD123` with a backend that answers without
`success`. -/
theorem unconfirmed_order_run_witness :
    (effect rejectingEnv successUrl false Instance.mount).1 = ⟨true, false, some "failed"⟩ ∧
    cartClears (handlePaymentCallback rejectingEnv successUrl).trace = 0 ∧
    timers (handlePaymentCallback rejectingEnv successUrl).trace = [("/", 2000)] :=
  have h := unconfirmed_order_run rejectingEnv successUrl "ORD123" (by decide) (by decide)
    (by decide) (fun _ => rfl) (Or.inl ⟨⟨false, some "Payment signature mismatch"⟩, rfl, rfl⟩)
  ⟨h.2.1, h.2.2.2.2.1, h.2.2.2.2.2.2.2.1⟩

/-- C8, counterexample: the backend answers `success: false` with the message
`Payment signature mismatch`; the failure notification reads
`Failed to confirm order`, and no notification carries the server's message. -/
theorem server_reason_not_shown :
    rpcResult rejectingEnv successUrl =
      .resolves ⟨false, some "Payment signature mismatch"⟩ ∧
    toasts (handlePaymentCallback rejectingEnv successUrl).trace =
      [confirmingToast, ⟨.error, "Failed to confirm order", "confirm-order"⟩] ∧
    (∀ t ∈ toasts (handlePaymentCallback rejectingEnv successUrl).trace,
      t.message ≠ "Payment signature mismatch") := by
  decide

/-- C8 as amended: for `payment=success` with a non-empty `ref`, when the RPC
fails and the notifications are shown, the failure notification carries: the
raised error's `message` when the RPC raises an error with a non-empty
message; the generic `Failed to process payment` when it raises an error whose
message is absent or empty; and the fixed `Failed to confirm order` when it
resolves without a truthy `success`, whatever message the response carries. -/
theorem failure_notification_text (env : Env) (sp : SearchParams)
    (hpay : sp.get "payment" = some "success") (href : truthy (sp.get "ref") = true)
    (hn : env.notifies)
    (hfail : ∀ resp, rpcResult env sp = .resolves resp → resp.success = false) :
    toasts (handlePaymentCallback env sp).trace =
      [confirmingToast,
        ⟨.error,
          (match rpcResult env sp with
            | .rejects ⟨some text⟩ => if text = "" then "Failed to process payment" else text
            | .rejects ⟨none⟩ => "Failed to process payment"
            | .resolves _ => "Failed to confirm order"),
          "confirm-order"⟩] := by
  cases hrpc : rpcResult env sp with
  | resolves resp =>
    have hblock := tryBlock_unconfirmed env sp resp hpay href (hn _) hrpc (hfail resp hrpc)
    obtain ⟨htrace, -⟩ := handler_of_error env sp _ _ hn hblock
    simp [htrace, toasts, receivedLog, confirmCall, orElse]
  | rejects e =>
    have hblock := tryBlock_rejects env sp e hpay href (hn _) hrpc
    obtain ⟨htrace, -⟩ := handler_of_error env sp _ _ hn hblock
    obtain ⟨message⟩ := e
    cases message with
    | none => simp [htrace, toasts, receivedLog, confirmCall, orElse]
    | some text =>
      by_cases ht : text = ""
      · simp [htrace, toasts, receivedLog, confirmCall, orElse, ht]
      · simp [htrace, toasts, receivedLog, confirmCall, orElse, ht]

/-- Witness for C8 as amended: a raised `Error` with a message is shown
verbatim. -/
theorem failure_notification_text_witness :
    toasts (handlePaymentCallback raisingEnv successUrl).trace =
      [confirmingToast, ⟨.error, "Request failed with status code 500", "confirm-order"⟩] :=
  (failure_notification_text raisingEnv successUrl (by decide) (by decide) (fun _ => rfl)
    (fun _ h => by cases h)).trans (by decide)

/-- C9: when `payment` is exactly `failed` and the notification is shown,
whatever `ref` and the gateway identifiers are, one run makes these calls in
this order: the log line, `setPaymentStatus` with `failed`, the "payment
failed" notification, a timer of 2000 ms navigating to `/`, and
`setProcessing(false)`.  So the instance ends with `paymentStatus = 'failed'`,
no RPC is made, the cart is not cleared, the marker is not removed, there is
one notification, and the only navigation is the scheduled one, none being
performed by the run itself. -/
theorem failed_payment_run (env : Env) (sp : SearchParams)
    (hpay : sp.get "payment" = some "failed")
    (htoast : env.toast ⟨.error, "Payment failed. Please try again.", "confirm-order"⟩ = none) :
    (handlePaymentCallback env sp).trace =
      [receivedLog sp, .setPaymentStatus "failed",
        .toast ⟨.error, "Payment failed. Please try again.", "confirm-order"⟩,
        .setTimeout "/" 2000, .setProcessing false] ∧
    (handlePaymentCallback env sp).result = .ok () ∧
    (effect env sp false Instance.mount).1 = ⟨true, false, some "failed"⟩ ∧
    phaseWrites (handlePaymentCallback env sp).trace = ["failed"] ∧
    rpcCalls (handlePaymentCallback env sp).trace = [] ∧
    cartClears (handlePaymentCallback env sp).trace = 0 ∧
    removals (handlePaymentCallback env sp).trace = [] ∧
    toasts (handlePaymentCallback env sp).trace =
      [⟨.error, "Payment failed. Please try again.", "confirm-order"⟩] ∧
    timers (handlePaymentCallback env sp).trace = [("/", 2000)] ∧
    navigations (handlePaymentCallback env sp).trace = [] := by
  have hblock := tryBlock_failed env sp hpay htoast
  obtain ⟨htrace, hres⟩ := handler_of_ok env sp _ hblock
  have hfull : (handlePaymentCallback env sp).trace =
      [receivedLog sp, .setPaymentStatus "failed",
        .toast ⟨.error, "Payment failed. Please try again.", "confirm-order"⟩,
        .setTimeout "/" 2000, .setProcessing false] := by
    rw [htrace]
    simp [paymentFailedToast]
  refine ⟨hfull, hres, ?_, ?_, ?_, ?_, ?_, ?_, ?_, ?_⟩
  · rw [effect_mount, hfull]
    simp [Instance.apply, receivedLog]
  · simp [hfull, phaseWrites, receivedLog]
  · simp [hfull, rpcCalls, receivedLog]
  · simp [hfull, cartClears, receivedLog]
  · simp [hfull, removals, receivedLog]
  · simp [hfull, toasts, receivedLog]
  · simp [hfull, timers, receivedLog]
  · simp [hfull, navigations, receivedLog]

/-- Witness for C9: the redirect `?payment=failed` of the specification's
example, without `ref`. -/
theorem failed_payment_run_witness :
    failedUrl.get "payment" = some "failed" ∧
    (effect confirmingEnv failedUrl false Instance.mount).1 = ⟨true, false, some "failed"⟩ ∧
    rpcCalls (handlePaymentCallback confirmingEnv failedUrl).trace = [] ∧
    timers (handlePaymentCallback confirmingEnv failedUrl).trace = [("/", 2000)] :=
  have h := failed_payment_run confirmingEnv failedUrl (by decide) rfl
  ⟨by decide, h.2.2.1, h.2.2.2.2.1, h.2.2.2.2.2.2.2.2.1⟩

/-- C10: when `payment` is absent or is any string other than exactly
`success` or `failed`, or when it is `success` and `ref` is absent or empty,
and the notification is shown, one run makes these calls in this order: the
log line, the "invalid callback" notification, `navigate('/')`, and
`setProcessing(false)`.  So the navigation to `/` is performed by the run
itself, no timer is scheduled, no RPC is made, the cart is not cleared and the
marker is not removed. -/
theorem invalid_callback_run (env : Env) (sp : SearchParams)
    (hbranch : (sp.get "payment" ≠ some "success" ∧ sp.get "payment" ≠ some "failed") ∨
      (sp.get "payment" = some "success" ∧ (sp.get "ref" = none ∨ sp.get "ref" = some "")))
    (htoast : env.toast ⟨.error, "Invalid payment callback", "confirm-order"⟩ = none) :
    (handlePaymentCallback env sp).trace =
      [receivedLog sp, .toast ⟨.error, "Invalid payment callback", "confirm-order"⟩,
        .navigate "/", .setProcessing false] ∧
    (handlePaymentCallback env sp).result = .ok () ∧
    toasts (handlePaymentCallback env sp).trace =
      [⟨.error, "Invalid payment callback", "confirm-order"⟩] ∧
    navigations (handlePaymentCallback env sp).trace = ["/"] ∧
    timers (handlePaymentCallback env sp).trace = [] ∧
    rpcCalls (handlePaymentCallback env sp).trace = [] ∧
    cartClears (handlePaymentCallback env sp).trace = 0 ∧
    removals (handlePaymentCallback env sp).trace = [] := by
  have h1 : ¬ (sp.get "payment" = some "success" ∧ truthy (sp.get "ref") = true) := by
    rintro ⟨hp, ht⟩
    rcases hbranch with ⟨hne, -⟩ | ⟨-, hnone | hempty⟩
    · exact hne hp
    · rw [hnone] at ht
      simp [truthy] at ht
    · rw [hempty] at ht
      simp [truthy] at ht
  have h2 : sp.get "payment" ≠ some "failed" := by
    rcases hbranch with ⟨-, hne⟩ | ⟨hp, -⟩
    · exact hne
    · rw [hp]
      decide
  have hblock := tryBlock_invalid env sp h1 h2 htoast
  obtain ⟨htrace, hres⟩ := handler_of_ok env sp _ hblock
  have hfull : (handlePaymentCallback env sp).trace =
      [receivedLog sp, .toast ⟨.error, "Invalid payment callback", "confirm-order"⟩,
        .navigate "/", .setProcessing false] := by
    rw [htrace]
    simp [invalidToast]
  refine ⟨hfull, hres, ?_, ?_, ?_, ?_, ?_, ?_⟩
  · simp [hfull, toasts, receivedLog]
  · simp [hfull, navigations, receivedLog]
  · simp [hfull, timers, receivedLog]
  · simp [hfull, rpcCalls, receivedLog]
  · simp [hfull, cartClears, receivedLog]
  · simp [hfull, removals, receivedLog]

/-- Witness for C10: `payment=Success` is not `success`, and `payment=success`
with an empty `ref` is not confirmed; both runs navigate to `/` at once. -/
theorem invalid_callback_run_witness :
    (capitalUrl.get "payment" = some "Success" ∧
      navigations (handlePaymentCallback confirmingEnv capitalUrl).trace = ["/"] ∧
      rpcCalls (handlePaymentCallback confirmingEnv capitalUrl).trace = []) ∧
    (emptyRefUrl.get "ref" = some "" ∧
      navigations (handlePaymentCallback confirmingEnv emptyRefUrl).trace = ["/"] ∧
      rpcCalls (handlePaymentCallback confirmingEnv emptyRefUrl).trace = []) :=
  have h := invalid_callback_run confirmingEnv capitalUrl
    (Or.inl ⟨by decide, by decide⟩) rfl
  have h2 := invalid_callback_run confirmingEnv emptyRefUrl
    (Or.inr ⟨by decide, Or.inr (by decide)⟩) rfl
  ⟨⟨by decide, h.2.2.2.1, h.2.2.2.2.2.1⟩, ⟨by decide, h2.2.2.2.1, h2.2.2.2.2.2.1⟩⟩

theorem processingWrites_append (a b : List Effect) :
    processingWrites (a ++ b) = processingWrites a ++ processingWrites b := by
  simp [processingWrites]

theorem processingWrites_catchBlock (env : Env) (error : JsError) :
    processingWrites (catchBlock env error).trace = [] := by
  unfold catchBlock toastCall
  cases env.toast ⟨.error, orElse error.message "Failed to process payment", "confirm-order"⟩ <;>
    simp [call_eq, callMay_none, callMay_some, bind_mk_ok, bind_mk_error, processingWrites]

theorem processingWrites_tryBlock (env : Env) (sp : SearchParams) :
    processingWrites (tryBlock env sp).trace = [] := by
  unfold tryBlock toastCall apiConfirmOrder
  generalize sp.get "payment" = payment
  generalize sp.get "ref" = ref
  generalize sp.get "razorpay_order_id" = oid
  generalize sp.get "razorpay_payment_id" = pid
  generalize sp.get "razorpay_signature" = sig
  by_cases h1 : payment = some "success" ∧ truthy ref = true
  · cases ht : env.toast ⟨.loading, "Confirming your order...", "confirm-order"⟩ with
    | some e0 =>
      simp [h1, call_eq, callMay_none, callMay_some, bind_mk_ok, bind_mk_error,
        processingWrites]
    | none =>
      cases hr : env.confirmOrder ref oid pid sig with
      | rejects e1 =>
        simp [h1, hr, call_eq, callMay_none, callMay_some, bind_mk_ok, bind_mk_error,
          processingWrites]
      | resolves resp =>
        cases hs : resp.success with
        | false =>
          simp [h1, hr, hs, call_eq, callMay_none, callMay_some, bind_mk_ok, bind_mk_error,
            processingWrites, throw_eq]
        | true =>
          cases env.toast ⟨.success, "Order placed successfully! 🎉", "confirm-order"⟩ <;>
          cases env.clearCart <;> cases env.removeItem <;>
          simp [h1, hr, hs, call_eq, callMay_none, callMay_some, bind_mk_ok, bind_mk_error,
            processingWrites]
  · by_cases h2 : payment = some "failed"
    · cases env.toast ⟨.error, "Payment failed. Please try again.", "confirm-order"⟩ <;>
        simp [h1, h2, call_eq, callMay_none, callMay_some, bind_mk_ok, bind_mk_error,
          processingWrites]
    · simp only [if_neg h1, if_neg h2]
      cases env.toast ⟨.error, "Invalid payment callback", "confirm-order"⟩ <;>
        simp [call_eq, callMay_none, callMay_some, bind_mk_ok, bind_mk_error, processingWrites]

theorem foldl_apply_setProcessing (t : List Effect) (value : Bool) (inst : Instance) :
    ((t ++ [Effect.setProcessing value]).foldl Instance.apply inst).processing = value := by
  rw [List.foldl_append]
  rfl

/-- C11: for every callback and every behaviour of the collaborators (the RPC
resolving with or without `success` or raising, `clearCart()`, the marker
removal and any notification throwing, in the `try` block or in the `catch`
block), one run of `handlePaymentCallback` calls `setProcessing` exactly once,
with `false`, as its last call, so the instance it was started on ends with
`processing = false`; while at mount `processing` is `true`, and it is still
`true` after any number of invocations made while `loading = true`. -/
theorem processing_cleared_by_every_run (env : Env) (sp : SearchParams) (p : Bool)
    (s : Option String) (blocked : List Env) :
    processingWrites (handlePaymentCallback env sp).trace = [false] ∧
    (handlePaymentCallback env sp).trace.getLast? = some (.setProcessing false) ∧
    (effect env sp false ⟨false, p, s⟩).1.processing = false ∧
    (effect env sp false Instance.mount).1.processing = false ∧
    Instance.mount.processing = true ∧
    (invocations sp (blocked.map (fun b => (true, b))) Instance.mount).1.processing = true := by
  refine ⟨?_, ?_, ?_, ?_, rfl, ?_⟩
  · rw [handlePaymentCallback_trace, processingWrites_append, processingWrites_append,
      processingWrites_tryBlock]
    cases (tryBlock env sp).result with
    | ok a => simp [processingWrites]
    | error e =>
      dsimp only
      rw [processingWrites_catchBlock]
      rfl
  · rw [handlePaymentCallback_trace]
    simp
  · rw [effect_ready, handlePaymentCallback_trace]
    exact foldl_apply_setProcessing _ false _
  · rw [effect_mount, handlePaymentCallback_trace]
    exact foldl_apply_setProcessing _ false _
  · have h := invocations_loading sp blocked [] Instance.mount
    rw [List.append_nil] at h
    rw [h]
    rfl

theorem confirmed_trace (env : Env) (sp : SearchParams) (r : String) (resp : Response)
    (hpay : sp.get "payment" = some "success") (href : sp.get "ref" = some r) (hr : r ≠ "")
    (hrpc : rpcResult env sp = .resolves resp) (hs : resp.success = true)
    (hcart : env.clearCart = none) (hrem : env.removeItem = none) (hn : env.notifies) :
    (handlePaymentCallback env sp).trace =
      [receivedLog sp, .toast confirmingToast, confirmCall sp,
        .setPaymentStatus "success", .toast placedToast, .clearCart,
        .removeItem "pendingOrder", .setTimeout ("/track-order/" ++ r) 1000,
        .setProcessing false] := by
  have hblock := tryBlock_confirmed env sp resp hpay (by rw [href]; exact truthy_some r hr)
    (hn _) hrpc hs (hn _) hcart hrem
  rw [(handler_of_ok env sp _ hblock).1]
  simp [href, interpolate]

theorem step_ignores_mounted (a b : Timeline) (tick : Tick)
    (hs : a.suspended = b.suspended) (hp : a.pending = b.pending) (hl : a.calls = b.calls) :
    (a.step tick).suspended = (b.step tick).suspended ∧
      (a.step tick).pending = (b.step tick).pending ∧
      (a.step tick).calls = (b.step tick).calls := by
  cases tick with
  | resume =>
    unfold Timeline.step
    rw [hs]
    cases b.suspended with
    | nil => exact ⟨hs ▸ rfl, hp, hl⟩
    | cons e rest =>
      simp only [Timeline.calls] at hl ⊢
      simp [hp, hl]
  | elapse =>
    unfold Timeline.step
    rw [hp]
    cases b.pending with
    | nil => exact ⟨hs, hp ▸ rfl, hl⟩
    | cons e rest =>
      simp only [Timeline.calls] at hl ⊢
      simp [hs, hl]
  | unmount => exact ⟨hs, hp, hl⟩

theorem run_ignores_unmount (ticks : List Tick) (a b : Timeline)
    (hs : a.suspended = b.suspended) (hp : a.pending = b.pending) (hl : a.calls = b.calls) :
    (a.run ticks).calls = (b.run (ticks.filter (fun tick => tick ≠ .unmount))).calls := by
  induction ticks generalizing a b with
  | nil => exact hl
  | cons tick rest ih =>
    cases tick with
    | resume =>
      obtain ⟨h1, h2, h3⟩ := step_ignores_mounted a b .resume hs hp hl
      simpa [Timeline.run] using ih _ _ h1 h2 h3
    | elapse =>
      obtain ⟨h1, h2, h3⟩ := step_ignores_mounted a b .elapse hs hp hl
      simpa [Timeline.run] using ih _ _ h1 h2 h3
    | unmount =>
      simpa [Timeline.run] using ih (a.step .unmount) b hs hp hl

/-- C12, counterexample: the order `ORD123` is being confirmed and the
component is torn down while the RPC is in flight.  After the teardown the
handler still calls `setPaymentStatus('success')`, shows the notification,
clears the cart, removes `pendingOrder`, schedules the timer and calls
`setProcessing(false)`, and the timer then navigates to
`/track-order/ORD123`. -/
theorem teardown_does_not_cancel :
    ((Timeline.start confirmingEnv successUrl).run [.resume, .resume, .resume]).calls =
      [receivedLog successUrl, .toast confirmingToast, confirmCall successUrl] ∧
    ((Timeline.start confirmingEnv successUrl).run teardownDuringRpc).mounted = false ∧
    ((Timeline.start confirmingEnv successUrl).run teardownDuringRpc).callsAfterTeardown =
      [.setPaymentStatus "success", .toast placedToast, .clearCart,
        .removeItem "pendingOrder", .setTimeout "/track-order/ORD123" 1000,
        .setProcessing false, .navigate "/track-order/ORD123"] := by
  decide

/-- C12 as amended: tearing the component down cancels nothing.  For every
callback, every behaviour of the collaborators and every sequence of ticks,
the calls made are those made by the same sequence without its unmounts.  In
particular, for `payment=success` with a non-empty `ref` and a confirming RPC
(cleanup and notifications not throwing): if the component is torn down while
the RPC is in flight, then after the teardown the handler calls
`setPaymentStatus('success')`, shows the success notification, clears the
cart, removes `pendingOrder`, schedules the 1000 ms timer and calls
`setProcessing(false)`, and the timer navigates to `/track-order/<ref>`; if it
is torn down after the run and before the delay is over, the timer still
navigates to `/track-order/<ref>`. -/
theorem teardown_cancels_nothing (env : Env) (sp : SearchParams) (r : String)
    (resp : Response) (ticks : List Tick)
    (hpay : sp.get "payment" = some "success") (href : sp.get "ref" = some r) (hr : r ≠ "")
    (hrpc : rpcResult env sp = .resolves resp) (hs : resp.success = true)
    (hcart : env.clearCart = none) (hrem : env.removeItem = none) (hn : env.notifies) :
    ((Timeline.start env sp).run ticks).calls =
      ((Timeline.start env sp).run (ticks.filter (fun tick => tick ≠ .unmount))).calls ∧
    ((Timeline.start env sp).run teardownDuringRpc).callsAfterTeardown =
      [.setPaymentStatus "success", .toast placedToast, .clearCart,
        .removeItem "pendingOrder", .setTimeout ("/track-order/" ++ r) 1000,
        .setProcessing false, .navigate ("/track-order/" ++ r)] ∧
    ((Timeline.start env sp).run teardownBeforeDelay).callsAfterTeardown =
      [.navigate ("/track-order/" ++ r)] := by
  have htrace := confirmed_trace env sp r resp hpay href hr hrpc hs hcart hrem hn
  refine ⟨run_ignores_unmount ticks _ _ rfl rfl rfl, ?_, ?_⟩
  · simp [Timeline.start, htrace, teardownDuringRpc, Timeline.run, Timeline.step, registered,
      Timeline.callsAfterTeardown, receivedLog, confirmCall]
  · simp [Timeline.start, htrace, teardownBeforeDelay, Timeline.run, Timeline.step, registered,
      Timeline.callsAfterTeardown, receivedLog, confirmCall]

/-- Witness for C12 as amended: the order `ORD123`, torn down after the run
and before the delay of its timer is over. -/
theorem teardown_cancels_nothing_witness :
    ((Timeline.start confirmingEnv successUrl).run teardownBeforeDelay).callsAfterTeardown =
      [.navigate "/track-order/ORD123"] :=
  (teardown_cancels_nothing confirmingEnv successUrl "ORD123" ⟨true, none⟩ [] (by decide)
    (by decide) (by decide) rfl rfl rfl rfl (fun _ => rfl)).2.2

end PaymentCallback

namespace RiderRegistration

open PaymentCallback (JsError orElse)

theorem run_bind_ok {α β : Type} (t : List Call) (a : α) (f : α → Run β) :
    (Run.mk t (Except.ok a) >>= f) = ⟨t ++ (f a).trace, (f a).result⟩ := rfl

theorem run_bind_error {α β : Type} (t : List Call) (e : JsError) (f : α → Run β) :
    (Run.mk t (Except.error e : Except JsError α) >>= f) = ⟨t, Except.error e⟩ := rfl

theorem invoke_eq (c : Call) : invoke c = ⟨[c], Except.ok ()⟩ := rfl

theorem run_pure {α : Type} (a : α) : (pure a : Run α) = ⟨[], Except.ok a⟩ := rfl

theorem awaited_none (c : Call) : awaited c none = ⟨[c], Except.ok ()⟩ := rfl

theorem awaited_some (c : Call) (err : JsError) :
    awaited c (some err) = ⟨[c], Except.error err⟩ := rfl

theorem handleSubmit_invalid (serverUrl : String) (env : Env) (fd : FormData)
    (h : ¬ checksPass fd) :
    (handleSubmit serverUrl env fd).trace =
      [.preventDefault, .toastError
        (if fd.vehicleType = "" then "Please select a vehicle type"
         else if trim fd.vehicleNumber = "" then "Please enter your vehicle number"
         else if trim fd.licenseNumber = "" then "Please enter your license number"
         else if trim fd.aadharNumber = "" ∨ length fd.aadharNumber ≠ 12 then
           "Please enter a valid 12-digit Aadhar number"
         else if trim fd.bankAccount = "" then "Please enter your bank account number"
         else "Please enter a valid 11-character IFSC code")] := by
  unfold handleSubmit
  by_cases h1 : fd.vehicleType = ""
  · simp [h1, invoke_eq, run_bind_ok, run_pure]
  by_cases h2 : trim fd.vehicleNumber = ""
  · simp [h1, h2, invoke_eq, run_bind_ok, run_pure]
  by_cases h3 : trim fd.licenseNumber = ""
  · simp [h1, h2, h3, invoke_eq, run_bind_ok, run_pure]
  by_cases h4 : trim fd.aadharNumber = "" ∨ length fd.aadharNumber ≠ 12
  · simp only [h1, h2, h3, h4, if_true, if_false]
    simp [invoke_eq, run_bind_ok, run_pure]
  by_cases h5 : trim fd.bankAccount = ""
  · simp only [h1, h2, h3, h4, h5, if_true, if_false]
    simp [invoke_eq, run_bind_ok, run_pure]
  by_cases h6 : trim fd.ifscCode = "" ∨ length fd.ifscCode ≠ 11
  · simp only [h1, h2, h3, h4, h5, h6, if_true, if_false]
    simp [invoke_eq, run_bind_ok, run_pure]
  · exfalso
    apply h
    refine ⟨h1, h2, h3, ⟨?_, ?_⟩, h5, ⟨?_, ?_⟩⟩
    · exact fun h' => h4 (Or.inl h')
    · exact not_not.mp (fun h' => h4 (Or.inr h'))
    · exact fun h' => h6 (Or.inl h')
    · exact not_not.mp (fun h' => h6 (Or.inr h'))

theorem handleSubmit_valid (serverUrl : String) (env : Env) (fd : FormData)
    (h : checksPass fd) :
    requests (handleSubmit serverUrl env fd).trace =
      [.fetch (serverUrl ++ "/api/rider/register") "POST" "application/json" "include" fd] ∧
    submittingWrites (handleSubmit serverUrl env fd).trace = [true, false] := by
  obtain ⟨h1, h2, h3, ⟨h4, h4b⟩, h5, ⟨h6, h6b⟩⟩ := h
  unfold handleSubmit
  simp only [h1, h2, h3, h4, h4b, h5, h6, h6b, if_false, or_self, ne_eq, not_true_eq_false]
  simp only [tryFinally, MonadFinally.tryFinally', tryCatch, MonadExcept.tryCatch, tryCatchThe,
    MonadExceptOf.tryCatch, Functor.map, fetchRegister, responseJson]
  cases env.fetch (serverUrl ++ "/api/rider/register") fd with
  | rejects e =>
    simp [invoke_eq, run_bind_ok, run_bind_error, run_pure, Run.tryCatch, Run.tryFinally,
      Run.bind, requests, submittingWrites]
  | responds ok body =>
    cases body with
    | unreadable e =>
      simp [invoke_eq, run_bind_ok, run_bind_error, run_pure, Run.tryCatch, Run.tryFinally,
        Run.bind, requests, submittingWrites]
    | data message =>
      cases ok <;> cases env.checkAuth <;>
      simp [invoke_eq, run_bind_ok, run_bind_error, run_pure, Run.tryCatch, Run.tryFinally,
        Run.bind, requests, submittingWrites, awaited_none, awaited_some]

/-- C13: `handleSubmit` sends the POST request to `/api/rider/register`, with
the form data as they are as body, exactly when the six checks pass, whatever
the server and `checkAuth()` then do.  When a check fails, its only calls are
`preventDefault()` and one error notification, that of the first failing
check in the order vehicle type, vehicle number, license number, Aadhar
number, bank account, IFSC code: nothing is sent and `submitting` is not
written, so it stays `false`. -/
theorem handleSubmit_posts_iff_checks_pass (serverUrl : String) (env : Env)
    (formData : FormData) :
    (checksPass formData →
      requests (handleSubmit serverUrl env formData).trace =
        [.fetch (serverUrl ++ "/api/rider/register") "POST" "application/json" "include"
          formData]) ∧
    (¬ checksPass formData →
      (handleSubmit serverUrl env formData).trace =
        [.preventDefault, .toastError
          (if formData.vehicleType = "" then "Please select a vehicle type"
           else if trim formData.vehicleNumber = "" then "Please enter your vehicle number"
           else if trim formData.licenseNumber = "" then "Please enter your license number"
           else if trim formData.aadharNumber = "" ∨ length formData.aadharNumber ≠ 12 then
             "Please enter a valid 12-digit Aadhar number"
           else if trim formData.bankAccount = "" then "Please enter your bank account number"
           else "Please enter a valid 11-character IFSC code")] ∧
      requests (handleSubmit serverUrl env formData).trace = [] ∧
      submittingWrites (handleSubmit serverUrl env formData).trace = [] ∧
      submittingAfter (handleSubmit serverUrl env formData).trace = false ∧
      (errorToasts (handleSubmit serverUrl env formData).trace).length = 1) ∧
    (requests (handleSubmit serverUrl env formData).trace ≠ [] ↔ checksPass formData) := by
  refine ⟨fun h => (handleSubmit_valid serverUrl env formData h).1, fun h => ?_, ?_⟩
  · have htrace := handleSubmit_invalid serverUrl env formData h
    refine ⟨htrace, ?_, ?_, ?_, ?_⟩
    · simp [htrace, requests]
    · simp [htrace, submittingWrites]
    · simp [htrace, submittingAfter, submittingWrites]
    · simp [htrace, errorToasts]
  · constructor
    · intro hreq
      by_contra h
      apply hreq
      simp [handleSubmit_invalid serverUrl env formData h, requests]
    · intro h
      rw [(handleSubmit_valid serverUrl env formData h).1]
      simp

/-- Witness for C13: a complete form whose Aadhar number starts with a blank
and has length 12 is posted; with an Aadhar number of length 11 and an IFSC
code of length 10 nothing is sent and the Aadhar message is shown. -/
theorem handleSubmit_posts_iff_checks_pass_witness :
    (checksPass completeForm ∧
      requests (handleSubmit "https://api.bigbite.example" acceptingEnv completeForm).trace =
        [.fetch "https://api.bigbite.example/api/rider/register" "POST" "application/json"
          "include" completeForm]) ∧
    (¬ checksPass shortAadharForm ∧
      (handleSubmit "https://api.bigbite.example" acceptingEnv shortAadharForm).trace =
        [.preventDefault, .toastError "Please enter a valid 12-digit Aadhar number"]) :=
  have hpass : checksPass completeForm := by
    unfold checksPass
    decide
  have hfail : ¬ checksPass shortAadharForm := by
    unfold checksPass
    decide
  ⟨⟨hpass, (handleSubmit_posts_iff_checks_pass "https://api.bigbite.example" acceptingEnv
      completeForm).1 hpass⟩,
    ⟨hfail, ((handleSubmit_posts_iff_checks_pass "https://api.bigbite.example" acceptingEnv
      shortAadharForm).2.1 hfail).1.trans (by decide)⟩⟩

end RiderRegistration

namespace NetworkDiagnostic

/-- C14: whatever the four probes do, `results.tests` has the five entries
Basic Connectivity, CORS with Credentials, Server Headers, Socket.IO Endpoint,
Network Information, in this order; the first four have status `PASS` or
`FAIL` and the fifth `INFO`, so `passCount + failCount = 4`; the summary is
the "All tests passed" text exactly when `failCount = 0`, the "All tests
failed" text exactly when `passCount = 0`, and in the remaining case the
partial-connectivity text with these two counts, where
`1 ≤ passCount ≤ 3`. -/
theorem runNetworkDiagnostic_tests_and_summary (env : Env) :
    (runNetworkDiagnostic env).tests.map Test.name =
      ["Basic Connectivity", "CORS with Credentials", "Server Headers", "Socket.IO Endpoint",
        "Network Information"] ∧
    (∀ t ∈ (runNetworkDiagnostic env).tests.take 4, t.status = "PASS" ∨ t.status = "FAIL") ∧
    ((runNetworkDiagnostic env).tests.drop 4).map Test.status = ["INFO"] ∧
    passCount (runNetworkDiagnostic env).tests + failCount (runNetworkDiagnostic env).tests = 4 ∧
    ((runNetworkDiagnostic env).summary = "✅ All tests passed! Your network should work fine." ↔
      failCount (runNetworkDiagnostic env).tests = 0) ∧
    ((runNetworkDiagnostic env).summary =
        "❌ All tests failed! Your network cannot reach the server." ↔
      passCount (runNetworkDiagnostic env).tests = 0) ∧
    (failCount (runNetworkDiagnostic env).tests = 0 ∨
      passCount (runNetworkDiagnostic env).tests = 0 ∨
      ((runNetworkDiagnostic env).summary =
          "⚠️ " ++ toString (passCount (runNetworkDiagnostic env).tests) ++ " passed, " ++
            toString (failCount (runNetworkDiagnostic env).tests) ++
            " failed. Partial connectivity." ∧
        1 ≤ passCount (runNetworkDiagnostic env).tests ∧
        passCount (runNetworkDiagnostic env).tests ≤ 3)) := by
  obtain ⟨ts, st, en, b, c, h, s, nav⟩ := env
  rcases s with e | ⟨_ | _, status⟩ <;> cases b <;> cases c <;> cases h <;>
    simp [runNetworkDiagnostic, basicConnectivity, corsWithCredentials, serverHeaders,
      socketEndpoint, networkInformation, passCount, failCount, summarize] <;>
    decide

/-- Witness for C14: when the four probes succeed there are four passes, no
failure, and the summary is the "All tests passed" text. -/
theorem runNetworkDiagnostic_tests_and_summary_witness :
    passCount (runNetworkDiagnostic reachableEnv).tests = 4 ∧
    failCount (runNetworkDiagnostic reachableEnv).tests = 0 ∧
    (runNetworkDiagnostic reachableEnv).summary =
      "✅ All tests passed! Your network should work fine." :=
  ⟨by decide, by decide,
    (runNetworkDiagnostic_tests_and_summary reachableEnv).2.2.2.2.1.mpr (by decide)⟩

end NetworkDiagnostic
